import Mathlib

/-! preflight_check: sensor self-tests, RC calibration check and failure alert

A shallow embedding of `src/systemcmds/preflight_check/preflight_check.c`.

The C function `preflight_check_main` talks to its surroundings through
`open`, `close`, `ioctl`, `usleep`, `warn`/`warnx`, `mavlink_log_critical`,
`param_find`/`param_get` and `exit`.  Every such call is recorded as an
`Event`; the surroundings the code reads (results of `open` and of the
self-test `ioctl`s, the parameter store) and the two `static` variables of
`led_toggle` make up the `World` that is passed from statement to statement.
-/

namespace Preflight

/-! ## Values of C type `float` -/

/-- A value of C type `float` as far as the comparison operators see it:
a finite number, one of the two infinities, or a NaN. -/
inductive CFloat where
  | nan
  | ninf
  | fin (q : ℚ)
  | pinf
  deriving DecidableEq

namespace CFloat

/-- The C operator `a < b` on floats: false as soon as one side is a NaN. -/
def lt : CFloat → CFloat → Bool
  | nan, _ => false
  | _, nan => false
  | ninf, ninf => false
  | ninf, _ => true
  | fin _, ninf => false
  | fin a, fin b => decide (a < b)
  | fin _, pinf => true
  | pinf, _ => false

/-- The C operator `a > b` on floats. -/
def gt (a b : CFloat) : Bool := lt b a

/-- The C operator `a <= b` on floats: false as soon as one side is a NaN. -/
def le : CFloat → CFloat → Bool
  | nan, _ => false
  | _, nan => false
  | ninf, _ => true
  | fin _, ninf => false
  | fin a, fin b => decide (a ≤ b)
  | fin _, pinf => true
  | pinf, pinf => true
  | pinf, _ => false

/-- The C operator `a >= b` on floats. -/
def ge (a b : CFloat) : Bool := le b a

/-- The test `isnan`. -/
def isNaN : CFloat → Bool
  | nan => true
  | _ => false

/-- An integer literal of the source converted to `float`. -/
def ofNat (n : Nat) : CFloat := fin n

end CFloat

/-! ## Names, devices, messages and events -/

/-- The five per-channel parameters `RC%d_MIN`, `RC%d_TRIM`, `RC%d_MAX`,
`RC%d_REV`, `RC%d_DZ`. -/
inductive Field where
  | MIN | TRIM | MAX | REV | DZ
  deriving DecidableEq, Repr

/-- A parameter name `RC<chan>_<field>` as built by `sprintf(nbuf, "RC%d_MIN", i + 1)`
and its siblings; the pair determines the string and the string the pair. -/
structure ParamName where
  chan : Nat
  field : Field
  deriving DecidableEq, Repr

/-- The device nodes the program opens. -/
inductive Device where
  | MAVLINK_LOG_DEVICE
  | MAG_DEVICE_PATH
  | ACCEL_DEVICE_PATH
  | GYRO_DEVICE_PATH
  | BARO_DEVICE_PATH
  | tone_alarm
  | LED_DEVICE_PATH
  deriving DecidableEq, Repr

/-- The two LED ioctl commands `LED_ON` and `LED_OFF`. -/
inductive LedCmd where
  | LED_ON | LED_OFF
  deriving DecidableEq, Repr

/-- The two LED identifiers used by the program. -/
inductive Led where
  | LED_BLUE | LED_AMBER
  deriving DecidableEq, Repr

/-- The texts handed to `mavlink_log_critical`, with their format arguments.
`ERR_RC_MIN n` is `"ERR: RC_%d_MIN < 500"` formatted with `n`, and so on;
`ERROR_config n c` is `"ERROR: %d config error(s) for RC channel %d."`
formatted with `n` and `c`. -/
inductive Msg where
  | SENSOR_FAIL_NO_MAG
  | SENSOR_FAIL_MAG_CHECK_CAL
  | SENSOR_FAIL_ACCEL_CHECK_CAL
  | SENSOR_FAIL_GYRO_CHECK_CAL
  | ERR_RC_MIN (n : Int)
  | ERR_RC_MAX (n : Int)
  | ERR_RC_TRIM_LT_MIN (n : Int)
  | ERR_RC_TRIM_GT_MAX (n : Int)
  | ERR_RC_DZ (n : Int)
  | ERROR_config (count : Nat) (chan : Int)
  deriving DecidableEq, Repr

/-- The console texts of `warn` and `warnx`. -/
inductive Warning where
  | usage
  | failed_to_open_magnetometer
  | magnetometer_calibration_missing_or_bad
  | accel_self_test_failed
  | gyro_self_test_failed
  deriving DecidableEq, Repr

/-- One call the program makes to its surroundings. -/
inductive Event where
  | warn (t : Warning)
  | dev_open (d : Device)
  | dev_close
  | selftest (d : Device)
  | usleep (us : Nat)
  | mavlink_log_critical (m : Msg)
  | param_find (n : ParamName)
  | param_get (n : ParamName)
  | fflush
  | led_ioctl (cmd : LedCmd) (led : Led)
  | tone_set_alarm (n : Nat)
  deriving DecidableEq, Repr

/-! ## The world and the program monad -/

/-- What the program reads from its surroundings, and the `static` variables
`last_blue` and `last_amber` of `led_toggle`. -/
structure World where
  params : ParamName → CFloat
  open_ret : Device → Int
  selftest_ret : Device → Int
  last_blue : LedCmd
  last_amber : LedCmd

/-- The outcome of running a piece of the program: its value, the calls it
made in order, and the world it leaves behind. -/
structure Res (α : Type) where
  val : α
  events : List Event
  world : World

/-- A piece of the program. -/
def Prog (α : Type) : Type := World → Res α

namespace Prog

/-- A piece that does nothing. -/
def ret {α : Type} (a : α) : Prog α := fun w => ⟨a, [], w⟩

/-- Sequencing: run `m`, then `f` on its value in the world `m` left. -/
def andThen {α β : Type} (m : Prog α) (f : α → Prog β) : Prog β := fun w =>
  let r := m w
  let s := f r.val r.world
  ⟨s.val, r.events ++ s.events, s.world⟩

instance : Monad Prog where
  pure := ret
  bind := andThen

/-- Record one call. -/
def emit (e : Event) : Prog Unit := fun w => ⟨(), [e], w⟩

end Prog

open Prog

/-- The value `OK` self-test ioctls are compared with (NuttX defines it as 0;
the header is not part of the source file). -/
def OK : Int := 0

/-- `open(path, flags)`: the descriptor, negative on failure. -/
def c_open (d : Device) : Prog Int := fun w => ⟨w.open_ret d, [Event.dev_open d], w⟩

/-- `close(fd)`. -/
def c_close : Prog Unit := emit Event.dev_close

/-- `ioctl(fd, XIOCSELFTEST, 0)` on the sensor `d`. -/
def ioctl_selftest (d : Device) : Prog Int :=
  fun w => ⟨w.selftest_ret d, [Event.selftest d], w⟩

/-- `usleep(us)`. -/
def usleep (us : Nat) : Prog Unit := emit (Event.usleep us)

/-- `warn(...)` and `warnx(...)`. -/
def warnx (t : Warning) : Prog Unit := emit (Event.warn t)

/-- `mavlink_log_critical(...)`. -/
def mavlink_log_critical (m : Msg) : Prog Unit := emit (Event.mavlink_log_critical m)

/-- `param_find(name)`: the handle of the parameter of that name. -/
def param_find (n : ParamName) : Prog ParamName := fun w => ⟨n, [Event.param_find n], w⟩

/-- `param_get(handle, &val)`: the stored value. -/
def param_get (h : ParamName) : Prog CFloat := fun w => ⟨w.params h, [Event.param_get h], w⟩

/-- The call `ioctl(buzzer, TONE_SET_ALARM, n)`. -/
def tone_set_alarm (n : Nat) : Prog Unit := emit (Event.tone_set_alarm n)

/-! ## The program -/

/-- Lines 279-289, `led_toggle`: flip the remembered state of the given LED
and command the LED to the new state. -/
def led_toggle (led : Led) : Prog Unit := fun w =>
  let w1 : World :=
    if led = Led.LED_BLUE then
      { w with last_blue := if w.last_blue = LedCmd.LED_ON then LedCmd.LED_OFF else LedCmd.LED_ON }
    else w
  let w2 : World :=
    if led = Led.LED_AMBER then
      { w1 with last_amber := if w1.last_amber = LedCmd.LED_ON then LedCmd.LED_OFF else LedCmd.LED_ON }
    else w1
  ⟨(), [Event.led_ioctl (if led = Led.LED_BLUE then w2.last_blue else w2.last_amber) led], w2⟩

/-- Lines 291-294, `led_off`. -/
def led_off (led : Led) : Prog Unit := emit (Event.led_ioctl LedCmd.LED_OFF led)

/-- Lines 296-299, `led_on`. -/
def led_on (led : Led) : Prog Unit := emit (Event.led_ioctl LedCmd.LED_ON led)

/-- Lines 148-223, the body of the channel loop for loop index `i`; its value
is whether `count` is nonzero at line 219.  `channel` is the identifier the
summary at line 220 formats; the function nowhere declares or assigns it, so
it is taken as given; that call also leaves out the descriptor argument the
other calls pass first, and is recorded as a message all the same.  `count`
is a `uint8_t`; each `if` hands the value of `count` it leaves to the next. -/
def rc_channel (channel : Int) (i : Nat) : Prog Bool := do
  let count : Nat := 0
  let _parameter_handles_min ← param_find ⟨i + 1, Field.MIN⟩
  let param_min ← param_get _parameter_handles_min
  let _parameter_handles_trim ← param_find ⟨i + 1, Field.TRIM⟩
  let param_trim ← param_get _parameter_handles_trim
  let _parameter_handles_max ← param_find ⟨i + 1, Field.MAX⟩
  let param_max ← param_get _parameter_handles_max
  let _parameter_handles_rev ← param_find ⟨i + 1, Field.REV⟩
  let _param_rev ← param_get _parameter_handles_rev
  let _parameter_handles_dz ← param_find ⟨i + 1, Field.DZ⟩
  let param_dz ← param_get _parameter_handles_dz
  let count ← (
    if CFloat.lt param_min (CFloat.ofNat 500) then do
      let count := (count + 1) % 256
      mavlink_log_critical (Msg.ERR_RC_MIN ((i : Int) + 1))
      usleep 100000
      pure count
    else pure count)
  let count ← (
    if CFloat.gt param_max (CFloat.ofNat 2500) then do
      let count := (count + 1) % 256
      mavlink_log_critical (Msg.ERR_RC_MAX ((i : Int) + 1))
      usleep 100000
      pure count
    else pure count)
  let count ← (
    if CFloat.lt param_trim param_min then do
      let count := (count + 1) % 256
      mavlink_log_critical (Msg.ERR_RC_TRIM_LT_MIN ((i : Int) + 1))
      usleep 100000
      pure count
    else pure count)
  let count ← (
    if CFloat.gt param_trim param_max then do
      let count := (count + 1) % 256
      mavlink_log_critical (Msg.ERR_RC_TRIM_GT_MAX ((i : Int) + 1))
      usleep 100000
      pure count
    else pure count)
  let count ← (
    if CFloat.gt param_dz (CFloat.ofNat 500) then do
      mavlink_log_critical (Msg.ERR_RC_DZ ((i : Int) + 1))
      usleep 100000
      pure ((count + 1) % 256)
    else pure count)
  if count ≠ 0 then do
    mavlink_log_critical (Msg.ERROR_config count (channel + 1))
    usleep 100000
    pure true
  else
    pure false

/-- Lines 147-224, the loop `for (int i = 0; i < 12; i++)` from index `i` on,
with the current value of `rc_ok`; its value is `rc_ok` after the loop. -/
def rc_loop (channel : Int) (i : Nat) (rc_ok : Bool) : Prog Bool :=
  if i < 12 then do
    let bad ← rc_channel channel i
    rc_loop channel (i + 1) (if bad then false else rc_ok)
  else
    pure rc_ok
termination_by 12 - i

/-- Lines 145-224, the RC calibration check: `rc_ok` after the loop. -/
def rc_calibration (channel : Int) : Prog Bool :=
  rc_loop channel 0 true

/-- Lines 78-227: everything between the argument handling and the label
`system_eval`; its value is `system_ok` on arrival at the label. -/
def run_checks (channel : Int) : Prog Bool := do
  let system_ok := true
  let _mavlink_fd ← c_open Device.MAVLINK_LOG_DEVICE
  usleep 150000
  c_close
  let fd ← c_open Device.MAG_DEVICE_PATH
  if fd < 0 then do
    warnx Warning.failed_to_open_magnetometer
    mavlink_log_critical Msg.SENSOR_FAIL_NO_MAG
    pure false
  else do
    let ret ← ioctl_selftest Device.MAG_DEVICE_PATH
    if ret ≠ OK then do
      warnx Warning.magnetometer_calibration_missing_or_bad
      mavlink_log_critical Msg.SENSOR_FAIL_MAG_CHECK_CAL
      pure false
    else do
      c_close
      let _fd ← c_open Device.ACCEL_DEVICE_PATH
      let ret ← ioctl_selftest Device.ACCEL_DEVICE_PATH
      if ret ≠ OK then do
        warnx Warning.accel_self_test_failed
        mavlink_log_critical Msg.SENSOR_FAIL_ACCEL_CHECK_CAL
        pure false
      else do
        c_close
        let _fd ← c_open Device.GYRO_DEVICE_PATH
        let ret ← ioctl_selftest Device.GYRO_DEVICE_PATH
        if ret ≠ OK then do
          warnx Warning.gyro_self_test_failed
          mavlink_log_critical Msg.SENSOR_FAIL_GYRO_CHECK_CAL
          pure false
        else do
          c_close
          let _fd ← c_open Device.BARO_DEVICE_PATH
          let rc_ok ← rc_calibration channel
          pure (system_ok && rc_ok)

/-- Lines 249-260, the loop `for (int i = 0; i < 150; i++)` from index `i` on. -/
def alert_loop (i : Nat) : Prog Unit :=
  if i < 150 then do
    led_toggle Led.LED_BLUE
    led_toggle Led.LED_AMBER
    if i % 10 = 0 then
      tone_set_alarm 4
    else if i % 5 = 0 then
      tone_set_alarm 2
    usleep 100000
    alert_loop (i + 1)
  else
    pure ()
termination_by 150 - i

/-- Lines 232-276, from the label `system_eval` on; its value is the argument
of the `exit` call reached. -/
def system_eval (system_ok fail_on_error : Bool) : Prog Int :=
  if system_ok then
    pure 0
  else do
    emit Event.fflush
    let _buzzer ← c_open Device.tone_alarm
    let _leds ← c_open Device.LED_DEVICE_PATH
    led_off Led.LED_BLUE
    led_off Led.LED_AMBER
    led_toggle Led.LED_BLUE
    alert_loop 0
    tone_set_alarm 0
    led_on Led.LED_BLUE
    led_on Led.LED_AMBER
    if fail_on_error then
      pure 1
    else
      pure 0

/-- The test `argc > 1 && !strcmp(argv[1], s)`. -/
def first_arg_is (argv : List String) (s : String) : Bool :=
  decide (1 < argv.length) && (argv.getD 1 "" == s)

/-- Lines 74-76: the value of `fail_on_error`. -/
def fail_on_error (argv : List String) : Bool :=
  first_arg_is argv "--fail-on-error"

/-- Lines 65-277, `preflight_check_main`; `argc` is the length of `argv`, and
the value is the argument of the `exit` call reached. -/
def preflight_check_main (argv : List String) (channel : Int) : Prog Int :=
  if first_arg_is argv "--help" then do
    warnx Warning.usage
    pure 1
  else do
    let system_ok ← run_checks channel
    system_eval system_ok (fail_on_error argv)

/-! ## Reading a run -/

/-- The messages handed to `mavlink_log_critical` in a run, in order. -/
def log_msgs (es : List Event) : List Msg :=
  es.filterMap (fun e => match e with
    | Event.mavlink_log_critical m => some m
    | _ => none)

/-- Whether a call is an LED command or a tone-alarm command. -/
def Event.is_output : Event → Bool
  | Event.led_ioctl _ _ => true
  | Event.tone_set_alarm _ => true
  | _ => false

/-- Whether a call looks up or reads a parameter. -/
def Event.is_param : Event → Bool
  | Event.param_find _ => true
  | Event.param_get _ => true
  | _ => false

/-- Whether a call opens or queries the device `d`. -/
def Event.touches (d : Device) : Event → Bool
  | Event.dev_open x => decide (x = d)
  | Event.selftest x => decide (x = d)
  | _ => false

/-- Whether a message is one of the four sensor-failure messages. -/
def Msg.is_sensor_fail : Msg → Bool
  | Msg.SENSOR_FAIL_NO_MAG => true
  | Msg.SENSOR_FAIL_MAG_CHECK_CAL => true
  | Msg.SENSOR_FAIL_ACCEL_CHECK_CAL => true
  | Msg.SENSOR_FAIL_GYRO_CHECK_CAL => true
  | _ => false

/-- The sensors in the order the program visits them. -/
inductive Sensor where
  | Mag | Accel | Gyro | Baro
  deriving DecidableEq, Repr

/-- The device node of a sensor. -/
def Sensor.device : Sensor → Device
  | Sensor.Mag => Device.MAG_DEVICE_PATH
  | Sensor.Accel => Device.ACCEL_DEVICE_PATH
  | Sensor.Gyro => Device.GYRO_DEVICE_PATH
  | Sensor.Baro => Device.BARO_DEVICE_PATH

/-- The position of a sensor in the order Magnetometer, Accelerometer,
Gyroscope, Barometer. -/
def Sensor.rank : Sensor → Nat
  | Sensor.Mag => 0
  | Sensor.Accel => 1
  | Sensor.Gyro => 2
  | Sensor.Baro => 3

/-- The sensor a sensor-failure message names. -/
def Msg.sensor : Msg → Option Sensor
  | Msg.SENSOR_FAIL_NO_MAG => some Sensor.Mag
  | Msg.SENSOR_FAIL_MAG_CHECK_CAL => some Sensor.Mag
  | Msg.SENSOR_FAIL_ACCEL_CHECK_CAL => some Sensor.Accel
  | Msg.SENSOR_FAIL_GYRO_CHECK_CAL => some Sensor.Gyro
  | _ => none

/-- Whether the surroundings make the check of a sensor fail: lines 92 and 100
for the magnetometer, 113 for the accelerometer, 126 for the gyroscope; the
barometer is only opened (line 136) and nothing is tested on it. -/
def sensor_fails (w : World) : Sensor → Bool
  | Sensor.Mag => decide (w.open_ret Device.MAG_DEVICE_PATH < 0) ||
      decide (w.selftest_ret Device.MAG_DEVICE_PATH ≠ OK)
  | Sensor.Accel => decide (w.selftest_ret Device.ACCEL_DEVICE_PATH ≠ OK)
  | Sensor.Gyro => decide (w.selftest_ret Device.GYRO_DEVICE_PATH ≠ OK)
  | Sensor.Baro => false

/-- The violation messages of the channel with loop index `i`, in the order of
the five `if`s of lines 177-208. -/
def chan_msgs (p : ParamName → CFloat) (i : Nat) : List Msg :=
  (if CFloat.lt (p ⟨i + 1, Field.MIN⟩) (CFloat.ofNat 500) then [Msg.ERR_RC_MIN ((i : Int) + 1)] else []) ++
  (if CFloat.gt (p ⟨i + 1, Field.MAX⟩) (CFloat.ofNat 2500) then [Msg.ERR_RC_MAX ((i : Int) + 1)] else []) ++
  (if CFloat.lt (p ⟨i + 1, Field.TRIM⟩) (p ⟨i + 1, Field.MIN⟩) then
    [Msg.ERR_RC_TRIM_LT_MIN ((i : Int) + 1)] else []) ++
  (if CFloat.gt (p ⟨i + 1, Field.TRIM⟩) (p ⟨i + 1, Field.MAX⟩) then
    [Msg.ERR_RC_TRIM_GT_MAX ((i : Int) + 1)] else []) ++
  (if CFloat.gt (p ⟨i + 1, Field.DZ⟩) (CFloat.ofNat 500) then [Msg.ERR_RC_DZ ((i : Int) + 1)] else [])

/-- The ten parameter calls of lines 152-174 for loop index `i`. -/
def chan_reads (i : Nat) : List Event :=
  [Event.param_find ⟨i + 1, Field.MIN⟩, Event.param_get ⟨i + 1, Field.MIN⟩,
   Event.param_find ⟨i + 1, Field.TRIM⟩, Event.param_get ⟨i + 1, Field.TRIM⟩,
   Event.param_find ⟨i + 1, Field.MAX⟩, Event.param_get ⟨i + 1, Field.MAX⟩,
   Event.param_find ⟨i + 1, Field.REV⟩, Event.param_get ⟨i + 1, Field.REV⟩,
   Event.param_find ⟨i + 1, Field.DZ⟩, Event.param_get ⟨i + 1, Field.DZ⟩]

/-- Messages, each followed by `usleep(100000)`. -/
def paced (ms : List Msg) : List Event :=
  ms.flatMap (fun m => [Event.mavlink_log_critical m, Event.usleep 100000])

/-- All the messages of the channel with loop index `i`: its violation
messages and, when there is one, the summary of line 220. -/
def chan_all_msgs (channel : Int) (p : ParamName → CFloat) (i : Nat) : List Msg :=
  chan_msgs p i ++
    (if chan_msgs p i = [] then [] else [Msg.ERROR_config (chan_msgs p i).length (channel + 1)])

/-- The calls of one pass through the loop body. -/
def chan_events (channel : Int) (p : ParamName → CFloat) (i : Nat) : List Event :=
  chan_reads i ++ paced (chan_all_msgs channel p i)

/-- Put calls in front of an outcome. -/
def Res.prepend {α : Type} (es : List Event) (r : Res α) : Res α :=
  ⟨r.val, es ++ r.events, r.world⟩

/-- The other LED command. -/
def LedCmd.flip : LedCmd → LedCmd
  | LedCmd.LED_ON => LedCmd.LED_OFF
  | LedCmd.LED_OFF => LedCmd.LED_ON

/-- The tone command of the alert cycle with index `i`, if there is one. -/
def cycle_tone (i : Nat) : List Event :=
  if i % 10 = 0 then [Event.tone_set_alarm 4]
  else if i % 5 = 0 then [Event.tone_set_alarm 2]
  else []

/-- The calls of the alert cycle with index `i` when the remembered LED states
before it are `b` (blue) and `a` (amber). -/
def cycle_events (i : Nat) (b a : LedCmd) : List Event :=
  [Event.led_ioctl b.flip Led.LED_BLUE, Event.led_ioctl a.flip Led.LED_AMBER] ++
    cycle_tone i ++ [Event.usleep 100000]

/-- The `n` alert cycles from index `i` on, one list of calls per cycle. -/
def alert_cycles : Nat → Nat → LedCmd → LedCmd → List (List Event)
  | 0, _, _, _ => []
  | n + 1, i, b, a => cycle_events i b a :: alert_cycles n (i + 1) b.flip a.flip

/-- The shape of one alert cycle: a command to the blue LED, a command to the
amber LED, at most one tone command, and a sleep of 100 ms. -/
def is_cycle (c : List Event) : Prop :=
  ∃ b a, ∃ t : List Event, c = [Event.led_ioctl b Led.LED_BLUE, Event.led_ioctl a Led.LED_AMBER] ++ t ++
      [Event.usleep 100000] ∧ (t = [] ∨ ∃ n, t = [Event.tone_set_alarm n])

/-- The calls on entry to the alert, lines 238-246, when the remembered state
of the blue LED is `b`. -/
def alert_entry (b : LedCmd) : List Event :=
  [Event.fflush, Event.dev_open Device.tone_alarm, Event.dev_open Device.LED_DEVICE_PATH,
   Event.led_ioctl LedCmd.LED_OFF Led.LED_BLUE, Event.led_ioctl LedCmd.LED_OFF Led.LED_AMBER,
   Event.led_ioctl b.flip Led.LED_BLUE]

/-- The calls after the alert loop, lines 263-267. -/
def alert_exit : List Event :=
  [Event.tone_set_alarm 0, Event.led_ioctl LedCmd.LED_ON Led.LED_BLUE,
   Event.led_ioctl LedCmd.LED_ON Led.LED_AMBER]

/-- The calls of lines 82-91, before the first test. -/
def checks_prelude : List Event :=
  [Event.dev_open Device.MAVLINK_LOG_DEVICE, Event.usleep 150000, Event.dev_close,
   Event.dev_open Device.MAG_DEVICE_PATH]

/-- A parameter store with the same five values on every channel. -/
def uniform_store (mn tr mx rev dz : CFloat) : ParamName → CFloat := fun n =>
  match n.field with
  | Field.MIN => mn
  | Field.TRIM => tr
  | Field.MAX => mx
  | Field.REV => rev
  | Field.DZ => dz

/-- The store of the success scenario: `min = 1000`, `trim = 1500`,
`max = 2000`, `deadzone = 10` on every channel (and reverse flag 1). -/
def good_store : ParamName → CFloat :=
  uniform_store (CFloat.fin 1000) (CFloat.fin 1500) (CFloat.fin 2000) (CFloat.fin 1) (CFloat.fin 10)

/-- The store `p` with the value of the one parameter `n` replaced by `v`. -/
def set_param (p : ParamName → CFloat) (n : ParamName) (v : CFloat) : ParamName → CFloat :=
  fun m => if m = n then v else p m

/-- Surroundings in which every `open` returns descriptor 3 and every
self-test returns `r`, at program start (both remembered LED states `LED_ON`). -/
def world_with (p : ParamName → CFloat) (r : Int) : World :=
  ⟨p, fun _ => 3, fun _ => r, LedCmd.LED_ON, LedCmd.LED_ON⟩

/-- The relationship invariant of the specification for the channel numbered
`c`: `min ≥ 500`, `max ≤ 2500`, `min ≤ trim ≤ max`, `deadzone ≤ 500`. -/
def spec_channel_valid (p : ParamName → CFloat) (c : Nat) : Prop :=
  CFloat.ge (p ⟨c, Field.MIN⟩) (CFloat.ofNat 500) = true ∧
  CFloat.le (p ⟨c, Field.MAX⟩) (CFloat.ofNat 2500) = true ∧
  CFloat.le (p ⟨c, Field.MIN⟩) (p ⟨c, Field.TRIM⟩) = true ∧
  CFloat.le (p ⟨c, Field.TRIM⟩) (p ⟨c, Field.MAX⟩) = true ∧
  CFloat.le (p ⟨c, Field.DZ⟩) (CFloat.ofNat 500) = true

/-- None of the five comparisons of lines 177-208 holds on the channel
numbered `c`. -/
def no_check_fires (p : ParamName → CFloat) (c : Nat) : Prop :=
  CFloat.lt (p ⟨c, Field.MIN⟩) (CFloat.ofNat 500) = false ∧
  CFloat.gt (p ⟨c, Field.MAX⟩) (CFloat.ofNat 2500) = false ∧
  CFloat.lt (p ⟨c, Field.TRIM⟩) (p ⟨c, Field.MIN⟩) = false ∧
  CFloat.gt (p ⟨c, Field.TRIM⟩) (p ⟨c, Field.MAX⟩) = false ∧
  CFloat.gt (p ⟨c, Field.DZ⟩) (CFloat.ofNat 500) = false

/-- None of the four compared values of the channel numbered `c` is a NaN. -/
def no_nan (p : ParamName → CFloat) (c : Nat) : Prop :=
  CFloat.isNaN (p ⟨c, Field.MIN⟩) = false ∧ CFloat.isNaN (p ⟨c, Field.TRIM⟩) = false ∧
  CFloat.isNaN (p ⟨c, Field.MAX⟩) = false ∧ CFloat.isNaN (p ⟨c, Field.DZ⟩) = false

/-- The five checks of lines 177-208, in source order. -/
inductive Invariant where
  | min_floor | max_ceiling | trim_ge_min | trim_le_max | dz_ceiling
  deriving DecidableEq, Repr

/-- The comparison that makes the check report a violation on the channel
numbered `c`. -/
def Invariant.fires (p : ParamName → CFloat) (c : Nat) : Invariant → Bool
  | Invariant.min_floor => CFloat.lt (p ⟨c, Field.MIN⟩) (CFloat.ofNat 500)
  | Invariant.max_ceiling => CFloat.gt (p ⟨c, Field.MAX⟩) (CFloat.ofNat 2500)
  | Invariant.trim_ge_min => CFloat.lt (p ⟨c, Field.TRIM⟩) (p ⟨c, Field.MIN⟩)
  | Invariant.trim_le_max => CFloat.gt (p ⟨c, Field.TRIM⟩) (p ⟨c, Field.MAX⟩)
  | Invariant.dz_ceiling => CFloat.gt (p ⟨c, Field.DZ⟩) (CFloat.ofNat 500)

/-- The invariant of the specification behind the check, on the channel
numbered `c`: `min ≥ 500`, `max ≤ 2500`, `trim ≥ min`, `trim ≤ max`,
`deadzone ≤ 500`. -/
def Invariant.holds (p : ParamName → CFloat) (c : Nat) : Invariant → Bool
  | Invariant.min_floor => CFloat.ge (p ⟨c, Field.MIN⟩) (CFloat.ofNat 500)
  | Invariant.max_ceiling => CFloat.le (p ⟨c, Field.MAX⟩) (CFloat.ofNat 2500)
  | Invariant.trim_ge_min => CFloat.ge (p ⟨c, Field.TRIM⟩) (p ⟨c, Field.MIN⟩)
  | Invariant.trim_le_max => CFloat.le (p ⟨c, Field.TRIM⟩) (p ⟨c, Field.MAX⟩)
  | Invariant.dz_ceiling => CFloat.le (p ⟨c, Field.DZ⟩) (CFloat.ofNat 500)

/-- The violation message of the check, for the channel number `c`. -/
def Invariant.msg (c : Int) : Invariant → Msg
  | Invariant.min_floor => Msg.ERR_RC_MIN c
  | Invariant.max_ceiling => Msg.ERR_RC_MAX c
  | Invariant.trim_ge_min => Msg.ERR_RC_TRIM_LT_MIN c
  | Invariant.trim_le_max => Msg.ERR_RC_TRIM_GT_MAX c
  | Invariant.dz_ceiling => Msg.ERR_RC_DZ c

/-- The five checks in the order the loop body makes them. -/
def Invariant.all : List Invariant :=
  [Invariant.min_floor, Invariant.max_ceiling, Invariant.trim_ge_min, Invariant.trim_le_max,
   Invariant.dz_ceiling]

/-- The checks whose comparison holds on the channel numbered `c`, in order. -/
def fired (p : ParamName → CFloat) (c : Nat) : List Invariant :=
  Invariant.all.filter (fun v => v.fires p c)

/-- Whether, in a run, every message selected by `P` has `usleep(100000)` as
the very next call. -/
def delay_follows (P : Msg → Bool) : List Event → Bool
  | [] => true
  | Event.mavlink_log_critical m :: rest =>
      (!P m || decide (rest.head? = some (Event.usleep 100000))) && delay_follows P rest
  | _ :: rest => delay_follows P rest

/-- The arguments of the tone-alarm commands of a run, in order. -/
def tone_cmds (es : List Event) : List Nat :=
  es.filterMap (fun e => match e with
    | Event.tone_set_alarm n => some n
    | _ => none)

/-- The commands sent to the LED `l` in a run, in order. -/
def led_cmds (l : Led) (es : List Event) : List LedCmd :=
  es.filterMap (fun e => match e with
    | Event.led_ioctl c x => if x = l then some c else none
    | _ => none)

/-- The world `w` with the result of opening the barometer replaced by `x`. -/
def set_baro_open (w : World) (x : Int) : World :=
  { w with open_ret := fun d => if d = Device.BARO_DEVICE_PATH then x else w.open_ret d }

/-- The store of the four-violation example: `min = 400`, `trim = 200`,
`max = 100`, `deadzone = 600` on every channel. -/
def bad_store : ParamName → CFloat :=
  uniform_store (CFloat.fin 400) (CFloat.fin 200) (CFloat.fin 100) (CFloat.fin 1) (CFloat.fin 600)

/-- The argument of the tone command of the alert cycle with index `i`, if
there is one (lines 254-258). -/
def tone_of (i : Nat) : List Nat :=
  if i % 10 = 0 then [4] else if i % 5 = 0 then [2] else []

/-! ## Running the pieces -/

theorem run_pure {α : Type} (a : α) (w : World) : (pure a : Prog α) w = ⟨a, [], w⟩ := rfl

theorem run_seq {α β : Type} (m : Prog α) (f : α → Prog β) (w : World) :
    (m >>= f) w = Res.prepend (m w).events (f (m w).val (m w).world) := rfl

theorem run_ite {α : Type} (c : Prop) [Decidable c] (a b : Prog α) (w : World) :
    (if c then a else b) w = if c then a w else b w := by
  split <;> rfl

theorem run_emit (e : Event) (w : World) : Prog.emit e w = ⟨(), [e], w⟩ := rfl

theorem run_log (m : Msg) (w : World) :
    mavlink_log_critical m w = ⟨(), [Event.mavlink_log_critical m], w⟩ := rfl

theorem run_usleep (n : Nat) (w : World) : usleep n w = ⟨(), [Event.usleep n], w⟩ := rfl

theorem run_warnx (t : Warning) (w : World) : warnx t w = ⟨(), [Event.warn t], w⟩ := rfl

theorem run_close (w : World) : c_close w = ⟨(), [Event.dev_close], w⟩ := rfl

theorem run_open (d : Device) (w : World) :
    c_open d w = ⟨w.open_ret d, [Event.dev_open d], w⟩ := rfl

theorem run_selftest (d : Device) (w : World) :
    ioctl_selftest d w = ⟨w.selftest_ret d, [Event.selftest d], w⟩ := rfl

theorem run_tone (n : Nat) (w : World) :
    tone_set_alarm n w = ⟨(), [Event.tone_set_alarm n], w⟩ := rfl

theorem run_led_on (l : Led) (w : World) :
    led_on l w = ⟨(), [Event.led_ioctl LedCmd.LED_ON l], w⟩ := rfl

theorem run_led_off (l : Led) (w : World) :
    led_off l w = ⟨(), [Event.led_ioctl LedCmd.LED_OFF l], w⟩ := rfl

theorem run_param_find (n : ParamName) (w : World) :
    param_find n w = ⟨n, [Event.param_find n], w⟩ := rfl

theorem run_param_get (n : ParamName) (w : World) :
    param_get n w = ⟨w.params n, [Event.param_get n], w⟩ := rfl

theorem Res.ite_val {α : Type} (c : Prop) [Decidable c] (a b : Res α) :
    (if c then a else b).val = if c then a.val else b.val := by split <;> rfl

theorem Res.ite_events {α : Type} (c : Prop) [Decidable c] (a b : Res α) :
    (if c then a else b).events = if c then a.events else b.events := by split <;> rfl

theorem Res.ite_world {α : Type} (c : Prop) [Decidable c] (a b : Res α) :
    (if c then a else b).world = if c then a.world else b.world := by split <;> rfl

theorem run_led_toggle_blue (w : World) :
    led_toggle Led.LED_BLUE w =
      ⟨(), [Event.led_ioctl w.last_blue.flip Led.LED_BLUE], { w with last_blue := w.last_blue.flip }⟩ := by
  cases h : w.last_blue <;> simp [led_toggle, h, LedCmd.flip]

theorem run_led_toggle_amber (w : World) :
    led_toggle Led.LED_AMBER w =
      ⟨(), [Event.led_ioctl w.last_amber.flip Led.LED_AMBER], { w with last_amber := w.last_amber.flip }⟩ := by
  cases h : w.last_amber <;> simp [led_toggle, h, LedCmd.flip]

/-- One pass through the loop body: the value, the calls, and the world left. -/
theorem rc_channel_run (channel : Int) (i : Nat) (w : World) :
    rc_channel channel i w =
      ⟨decide (chan_msgs w.params i ≠ []), chan_events channel w.params i, w⟩ := by
  unfold rc_channel
  simp only [run_seq, run_param_find, run_param_get, run_log, run_usleep, run_pure, run_ite,
    Res.ite_val, Res.ite_events, Res.ite_world, Res.prepend, ite_self, List.append_nil, List.nil_append,
    List.cons_append]
  rcases Bool.eq_false_or_eq_true (CFloat.lt (w.params ⟨i + 1, Field.MIN⟩) (CFloat.ofNat 500)) with h1 | h1 <;>
  rcases Bool.eq_false_or_eq_true (CFloat.gt (w.params ⟨i + 1, Field.MAX⟩) (CFloat.ofNat 2500)) with h2 | h2 <;>
  rcases Bool.eq_false_or_eq_true (CFloat.lt (w.params ⟨i + 1, Field.TRIM⟩) (w.params ⟨i + 1, Field.MIN⟩)) with h3 | h3 <;>
  rcases Bool.eq_false_or_eq_true (CFloat.gt (w.params ⟨i + 1, Field.TRIM⟩) (w.params ⟨i + 1, Field.MAX⟩)) with h4 | h4 <;>
  rcases Bool.eq_false_or_eq_true (CFloat.gt (w.params ⟨i + 1, Field.DZ⟩) (CFloat.ofNat 500)) with h5 | h5 <;>
  simp [h1, h2, h3, h4, h5, chan_events, chan_all_msgs, chan_msgs, chan_reads, paced]

/-- The channel loop from index `i` on, when `n` passes remain. -/
theorem rc_loop_run (channel : Int) (n : Nat) :
    ∀ (i : Nat) (ok : Bool) (w : World), i + n = 12 →
      rc_loop channel i ok w =
        ⟨ok && (List.range' i n).all (fun j => decide (chan_msgs w.params j = [])),
         (List.range' i n).flatMap (chan_events channel w.params), w⟩ := by
  induction n with
  | zero =>
    intro i ok w h
    rw [rc_loop]
    have : ¬ i < 12 := by omega
    simp [this, run_pure]
  | succ n ih =>
    intro i ok w h
    rw [rc_loop]
    have h1 : i < 12 := by omega
    have h2 : i + 1 + n = 12 := by omega
    simp only [h1, if_true, run_seq, rc_channel_run, ih (i + 1) _ w h2, Res.prepend]
    by_cases hc : chan_msgs w.params i = [] <;> simp [hc, List.range'_succ]

theorem rc_calibration_run (channel : Int) (w : World) :
    rc_calibration channel w =
      ⟨(List.range' 0 12).all (fun j => decide (chan_msgs w.params j = [])),
       (List.range' 0 12).flatMap (chan_events channel w.params), w⟩ := by
  unfold rc_calibration
  rw [rc_loop_run channel 12 0 true w rfl]
  simp

/-- The alert loop from index `i` on, when `n` cycles remain. -/
theorem alert_loop_run (n : Nat) :
    ∀ (i : Nat) (w : World), i + n = 150 →
      alert_loop i w =
        ⟨(), (alert_cycles n i w.last_blue w.last_amber).flatten,
         { w with last_blue := LedCmd.flip^[n] w.last_blue, last_amber := LedCmd.flip^[n] w.last_amber }⟩ := by
  induction n with
  | zero =>
    intro i w h
    rw [alert_loop]
    have : ¬ i < 150 := by omega
    simp [this, run_pure, alert_cycles]
  | succ n ih =>
    intro i w h
    rw [alert_loop]
    have h1 : i < 150 := by omega
    have h2 : i + 1 + n = 150 := by omega
    simp only [h1, if_true, run_seq, run_led_toggle_blue, run_led_toggle_amber, run_ite, run_tone,
      run_usleep, run_pure, ih (i + 1) _ h2, Res.prepend, Res.ite_val, Res.ite_events, Res.ite_world]
    simp [alert_cycles, cycle_events, cycle_tone]
    split_ifs <;> simp

/-- The alert and exit stage on a failing verdict. -/
theorem system_eval_false_run (foe : Bool) (w : World) :
    system_eval false foe w =
      ⟨if foe then 1 else 0,
       alert_entry w.last_blue ++ (alert_cycles 150 0 w.last_blue.flip w.last_amber).flatten ++ alert_exit,
       { w with last_blue := LedCmd.flip^[150] w.last_blue.flip,
                last_amber := LedCmd.flip^[150] w.last_amber }⟩ := by
  unfold system_eval
  simp only [Bool.false_eq_true, if_false, run_seq, run_emit, run_open, run_led_off, run_led_on,
    run_led_toggle_blue, run_tone, run_pure, run_ite, alert_loop_run 150 0 _ rfl, Res.prepend,
    Res.ite_val, Res.ite_events, Res.ite_world]
  cases foe <;> simp [alert_entry, alert_exit]

/-- The exit stage on a passing verdict. -/
theorem system_eval_true_run (foe : Bool) (w : World) :
    system_eval true foe w = ⟨0, [], w⟩ := by
  simp [system_eval, run_pure]

/-- The checks stage, by the first step that fails. -/
theorem run_checks_run (channel : Int) (w : World) :
    run_checks channel w =
      if w.open_ret Device.MAG_DEVICE_PATH < 0 then
        ⟨false, checks_prelude ++ [Event.warn Warning.failed_to_open_magnetometer,
          Event.mavlink_log_critical Msg.SENSOR_FAIL_NO_MAG], w⟩
      else if w.selftest_ret Device.MAG_DEVICE_PATH ≠ OK then
        ⟨false, checks_prelude ++ [Event.selftest Device.MAG_DEVICE_PATH,
          Event.warn Warning.magnetometer_calibration_missing_or_bad,
          Event.mavlink_log_critical Msg.SENSOR_FAIL_MAG_CHECK_CAL], w⟩
      else if w.selftest_ret Device.ACCEL_DEVICE_PATH ≠ OK then
        ⟨false, checks_prelude ++ [Event.selftest Device.MAG_DEVICE_PATH, Event.dev_close,
          Event.dev_open Device.ACCEL_DEVICE_PATH, Event.selftest Device.ACCEL_DEVICE_PATH,
          Event.warn Warning.accel_self_test_failed,
          Event.mavlink_log_critical Msg.SENSOR_FAIL_ACCEL_CHECK_CAL], w⟩
      else if w.selftest_ret Device.GYRO_DEVICE_PATH ≠ OK then
        ⟨false, checks_prelude ++ [Event.selftest Device.MAG_DEVICE_PATH, Event.dev_close,
          Event.dev_open Device.ACCEL_DEVICE_PATH, Event.selftest Device.ACCEL_DEVICE_PATH,
          Event.dev_close, Event.dev_open Device.GYRO_DEVICE_PATH,
          Event.selftest Device.GYRO_DEVICE_PATH, Event.warn Warning.gyro_self_test_failed,
          Event.mavlink_log_critical Msg.SENSOR_FAIL_GYRO_CHECK_CAL], w⟩
      else
        ⟨(rc_calibration channel w).val,
         checks_prelude ++ [Event.selftest Device.MAG_DEVICE_PATH, Event.dev_close,
          Event.dev_open Device.ACCEL_DEVICE_PATH, Event.selftest Device.ACCEL_DEVICE_PATH,
          Event.dev_close, Event.dev_open Device.GYRO_DEVICE_PATH,
          Event.selftest Device.GYRO_DEVICE_PATH, Event.dev_close,
          Event.dev_open Device.BARO_DEVICE_PATH] ++ (rc_calibration channel w).events, w⟩ := by
  unfold run_checks
  simp only [run_seq, run_open, run_usleep, run_close, run_warnx, run_log, run_selftest, run_pure,
    run_ite, Res.prepend, rc_calibration_run, Res.ite_val, Res.ite_events, Res.ite_world]
  split_ifs <;> simp [checks_prelude]

/-- The whole program when the first argument is not `--help`. -/
theorem main_run (argv : List String) (channel : Int) (w : World)
    (h : first_arg_is argv "--help" = false) :
    preflight_check_main argv channel w =
      Res.prepend (run_checks channel w).events
        (system_eval (run_checks channel w).val (fail_on_error argv) (run_checks channel w).world) := by
  unfold preflight_check_main
  simp only [h, Bool.false_eq_true, if_false, run_seq]

/-- The whole program when the first argument is `--help`. -/
theorem main_help_run (argv : List String) (channel : Int) (w : World)
    (h : first_arg_is argv "--help" = true) :
    preflight_check_main argv channel w = ⟨1, [Event.warn Warning.usage], w⟩ := by
  unfold preflight_check_main
  simp [h, run_seq, run_warnx, run_pure, Res.prepend]

theorem run_checks_world (channel : Int) (w : World) : (run_checks channel w).world = w := by
  rw [run_checks_run]
  split_ifs <;> rfl

/-! ## Comparisons -/

theorem CFloat.lt_false_iff_le (a b : CFloat) (ha : a.isNaN = false) (hb : b.isNaN = false) :
    CFloat.lt a b = false ↔ CFloat.le b a = true := by
  cases a <;> cases b <;> simp_all [CFloat.lt, CFloat.le, CFloat.isNaN]

theorem CFloat.lt_irrefl (a : CFloat) : CFloat.lt a a = false := by
  cases a <;> simp [CFloat.lt]

theorem CFloat.isNaN_ofNat (n : Nat) : (CFloat.ofNat n).isNaN = false := rfl

/-! ## The channel loop as a whole -/

theorem chan_msgs_nil_iff (p : ParamName → CFloat) (i : Nat) :
    chan_msgs p i = [] ↔ no_check_fires p (i + 1) := by
  unfold chan_msgs no_check_fires
  rcases Bool.eq_false_or_eq_true (CFloat.lt (p ⟨i + 1, Field.MIN⟩) (CFloat.ofNat 500)) with h1 | h1 <;>
  rcases Bool.eq_false_or_eq_true (CFloat.gt (p ⟨i + 1, Field.MAX⟩) (CFloat.ofNat 2500)) with h2 | h2 <;>
  rcases Bool.eq_false_or_eq_true (CFloat.lt (p ⟨i + 1, Field.TRIM⟩) (p ⟨i + 1, Field.MIN⟩)) with h3 | h3 <;>
  rcases Bool.eq_false_or_eq_true (CFloat.gt (p ⟨i + 1, Field.TRIM⟩) (p ⟨i + 1, Field.MAX⟩)) with h4 | h4 <;>
  rcases Bool.eq_false_or_eq_true (CFloat.gt (p ⟨i + 1, Field.DZ⟩) (CFloat.ofNat 500)) with h5 | h5 <;>
  simp [h1, h2, h3, h4, h5]

theorem no_check_fires_iff_valid (p : ParamName → CFloat) (c : Nat) (h : no_nan p c) :
    no_check_fires p c ↔ spec_channel_valid p c := by
  obtain ⟨h1, h2, h3, h4⟩ := h
  unfold no_check_fires spec_channel_valid CFloat.gt CFloat.ge
  rw [CFloat.lt_false_iff_le _ _ h1 (CFloat.isNaN_ofNat _), CFloat.lt_false_iff_le _ _ (CFloat.isNaN_ofNat _) h3,
    CFloat.lt_false_iff_le _ _ h2 h1, CFloat.lt_false_iff_le _ _ h3 h2,
    CFloat.lt_false_iff_le _ _ (CFloat.isNaN_ofNat _) h4]

theorem rc_ok_iff (channel : Int) (w : World) :
    (rc_calibration channel w).val = true ↔ ∀ c, 1 ≤ c → c ≤ 12 → no_check_fires w.params c := by
  rw [rc_calibration_run]
  simp only [List.all_eq_true, List.mem_range'_1, decide_eq_true_eq, chan_msgs_nil_iff]
  constructor
  · intro h c h1 h2
    have := h (c - 1) ⟨by omega, by omega⟩
    rwa [Nat.sub_add_cancel h1] at this
  · intro h j hj
    exact h (j + 1) (by omega) (by omega)

/-! ## C1 -/

theorem run_checks_val_iff (channel : Int) (w : World) :
    (run_checks channel w).val = true ↔
      ((0 ≤ w.open_ret Device.MAG_DEVICE_PATH ∧
        w.selftest_ret Device.MAG_DEVICE_PATH = OK ∧
        w.selftest_ret Device.ACCEL_DEVICE_PATH = OK ∧
        w.selftest_ret Device.GYRO_DEVICE_PATH = OK) ∧
       (rc_calibration channel w).val = true) := by
  rw [run_checks_run]
  split_ifs with h1 h2 h3 h4
  · simp; intro h; omega
  · simp; intro _ h; exact absurd h h2
  · simp; intro _ _ h; exact absurd h h3
  · simp; intro _ _ _ h; exact absurd h h4
  · have : 0 ≤ w.open_ret Device.MAG_DEVICE_PATH := by omega
    simp_all

/-- C1: the verdict `system_ok` on arrival at `system_eval` is true exactly when
the magnetometer opens, the magnetometer, accelerometer and gyroscope
self-tests each return `OK`, and the RC check of the same parameter store
yields `rc_ok` true; this covers the runs that jump past the RC check. -/
theorem C1_system_ok_iff (channel : Int) (w : World) :
    (run_checks channel w).val = true ↔
      ((0 ≤ w.open_ret Device.MAG_DEVICE_PATH ∧
        w.selftest_ret Device.MAG_DEVICE_PATH = OK ∧
        w.selftest_ret Device.ACCEL_DEVICE_PATH = OK ∧
        w.selftest_ret Device.GYRO_DEVICE_PATH = OK) ∧
       (rc_calibration channel w).val = true) :=
  run_checks_val_iff channel w

/-! ## C2 -/

/-- C2, counterexample: with deadzone NaN on channel 1 and every other value
as in the success scenario, no comparison fires and `rc_ok` is true, although
channel 1 does not satisfy `deadzone ≤ 500`. -/
theorem C2_nan_passes :
    ¬ ((rc_calibration 0 (world_with (set_param good_store ⟨1, Field.DZ⟩ CFloat.nan) 0)).val = true ↔
        ∀ c, 1 ≤ c → c ≤ 12 →
          spec_channel_valid (set_param good_store ⟨1, Field.DZ⟩ CFloat.nan) c) := by
  intro h
  have hok : (rc_calibration 0 (world_with (set_param good_store ⟨1, Field.DZ⟩ CFloat.nan) 0)).val = true := by
    rw [rc_ok_iff]
    intro c _ _
    by_cases hc : c = 1 <;>
      simp [no_check_fires, world_with, set_param, good_store, uniform_store, CFloat.lt, CFloat.gt,
        CFloat.ofNat, hc] <;> norm_num
  have := (h.mp hok 1 (by decide) (by decide)).2.2.2.2
  simp [set_param, CFloat.le] at this

/-- C2, amended: `rc_ok` is true exactly when on every channel 1..12 none of
the comparisons `min < 500`, `max > 2500`, `trim < min`, `trim > max`,
`deadzone > 500` holds; when none of the compared values is a NaN this is the
invariant `min ≥ 500`, `max ≤ 2500`, `min ≤ trim ≤ max`, `deadzone ≤ 500` on
every channel; and stores that differ only in reverse flags give the same
`rc_ok`. -/
theorem C2_rc_ok_iff (channel : Int) (w : World) :
    ((rc_calibration channel w).val = true ↔ ∀ c, 1 ≤ c → c ≤ 12 → no_check_fires w.params c) ∧
    ((∀ c, 1 ≤ c → c ≤ 12 → no_nan w.params c) →
      ((rc_calibration channel w).val = true ↔ ∀ c, 1 ≤ c → c ≤ 12 → spec_channel_valid w.params c)) ∧
    (∀ v : World, (∀ n : ParamName, n.field ≠ Field.REV → v.params n = w.params n) →
      (rc_calibration channel v).val = (rc_calibration channel w).val) := by
  refine ⟨rc_ok_iff channel w, ?_, ?_⟩
  · intro hn
    rw [rc_ok_iff]
    constructor
    · intro h c h1 h2
      exact (no_check_fires_iff_valid _ c (hn c h1 h2)).mp (h c h1 h2)
    · intro h c h1 h2
      exact (no_check_fires_iff_valid _ c (hn c h1 h2)).mpr (h c h1 h2)
  · intro v hv
    have key : ∀ c, no_check_fires v.params c ↔ no_check_fires w.params c := by
      intro c
      simp [no_check_fires, hv]
    rw [Bool.eq_iff_iff, rc_ok_iff, rc_ok_iff]
    simp only [key]

/-- C2, witness: the success-scenario store has no NaN, satisfies the
invariant on every channel, and `rc_ok` is true on it. -/
theorem C2_rc_ok_iff_witness :
    (∀ c, 1 ≤ c → c ≤ 12 → no_nan (world_with good_store 0).params c) ∧
    (∀ c, 1 ≤ c → c ≤ 12 → spec_channel_valid (world_with good_store 0).params c) ∧
    (rc_calibration 0 (world_with good_store 0)).val = true := by
  have hn : ∀ c, 1 ≤ c → c ≤ 12 → no_nan (world_with good_store 0).params c := by
    intro c _ _
    simp [no_nan, world_with, good_store, uniform_store, CFloat.isNaN]
  have hv : ∀ c, 1 ≤ c → c ≤ 12 → spec_channel_valid (world_with good_store 0).params c := by
    intro c _ _
    simp [spec_channel_valid, world_with, good_store, uniform_store, CFloat.le, CFloat.ge, CFloat.ofNat]
    norm_num
  exact ⟨hn, hv, ((C2_rc_ok_iff 0 (world_with good_store 0)).2.1 hn).mpr hv⟩

/-! ## The alert stage -/

theorem log_msgs_append (a b : List Event) : log_msgs (a ++ b) = log_msgs a ++ log_msgs b := by
  simp [log_msgs, List.filterMap_append]

theorem log_msgs_eq_nil (es : List Event)
    (h : ∀ e ∈ es, e.is_output = true ∨ e = Event.usleep 100000) : log_msgs es = [] := by
  unfold log_msgs
  rw [List.filterMap_eq_nil_iff]
  intro e he
  rcases h e he with h1 | h1
  · cases e <;> simp_all [Event.is_output]
  · subst h1; rfl

theorem cycle_events_kind (i : Nat) (b a : LedCmd) :
    ∀ e ∈ cycle_events i b a, e.is_output = true ∨ e = Event.usleep 100000 := by
  intro e he
  unfold cycle_events cycle_tone at he
  split_ifs at he <;> simp at he <;> casesm* _ ∨ _ <;> subst_vars <;> simp [Event.is_output]

theorem alert_cycles_kind (n : Nat) : ∀ (i : Nat) (b a : LedCmd),
    ∀ e ∈ (alert_cycles n i b a).flatten, e.is_output = true ∨ e = Event.usleep 100000 := by
  induction n with
  | zero => intro i b a e he; simp [alert_cycles] at he
  | succ n ih =>
    intro i b a e he
    simp only [alert_cycles, List.flatten_cons, List.mem_append] at he
    rcases he with h | h
    · exact cycle_events_kind i b a e h
    · exact ih _ _ _ e h

theorem alert_cycles_length (n : Nat) : ∀ (i : Nat) (b a : LedCmd),
    (alert_cycles n i b a).length = n := by
  induction n with
  | zero => intro i b a; rfl
  | succ n ih => intro i b a; simp [alert_cycles, ih]

theorem cycle_events_is_cycle (i : Nat) (b a : LedCmd) : is_cycle (cycle_events i b a) := by
  refine ⟨b.flip, a.flip, cycle_tone i, rfl, ?_⟩
  unfold cycle_tone
  split_ifs
  · exact Or.inr ⟨4, rfl⟩
  · exact Or.inr ⟨2, rfl⟩
  · exact Or.inl rfl

theorem alert_cycles_is_cycle (n : Nat) : ∀ (i : Nat) (b a : LedCmd),
    ∀ c ∈ alert_cycles n i b a, is_cycle c := by
  induction n with
  | zero => intro i b a c hc; simp [alert_cycles] at hc
  | succ n ih =>
    intro i b a c hc
    simp only [alert_cycles, List.mem_cons] at hc
    rcases hc with h | h
    · subst h; exact cycle_events_is_cycle i b a
    · exact ih _ _ _ c h

theorem cycle_events_count (i : Nat) (b a : LedCmd) :
    (cycle_events i b a).count (Event.usleep 100000) = 1 := by
  unfold cycle_events cycle_tone
  split_ifs <;> simp [List.count_cons]

theorem alert_cycles_count (n : Nat) : ∀ (i : Nat) (b a : LedCmd),
    (alert_cycles n i b a).flatten.count (Event.usleep 100000) = n := by
  induction n with
  | zero => intro i b a; simp [alert_cycles]
  | succ n ih =>
    intro i b a
    simp only [alert_cycles, List.flatten_cons, List.count_append, cycle_events_count, ih]
    omega

theorem alert_stage_log (foe : Bool) (w : World) :
    log_msgs (system_eval false foe w).events = [] := by
  rw [system_eval_false_run]
  simp only [log_msgs_append, log_msgs_eq_nil _ (alert_cycles_kind _ _ _ _)]
  simp [log_msgs, alert_entry, alert_exit]

theorem alert_stage_touches (foe : Bool) (w : World) (s : Sensor) :
    ∀ e ∈ (system_eval false foe w).events, e.touches s.device = false := by
  rw [system_eval_false_run]
  intro e he
  simp only [List.mem_append] at he
  rcases he with (h | h) | h
  · cases s <;> simp [alert_entry] at h <;> rcases h with h | h | h | h | h | h <;> subst h <;>
      simp [Event.touches, Sensor.device]
  · rcases alert_cycles_kind _ _ _ _ e h with h1 | h1
    · cases e <;> simp_all [Event.is_output, Event.touches]
    · subst h1; rfl
  · simp [alert_exit] at h
    rcases h with h | h | h <;> subst h <;> rfl

theorem alert_stage_no_param (foe : Bool) (w : World) :
    ∀ e ∈ (system_eval false foe w).events, e.is_param = false := by
  rw [system_eval_false_run]
  intro e he
  simp only [List.mem_append] at he
  rcases he with (h | h) | h
  · simp [alert_entry] at h
    rcases h with h | h | h | h | h | h <;> subst h <;> rfl
  · rcases alert_cycles_kind _ _ _ _ e h with h1 | h1
    · cases e <;> simp_all [Event.is_output, Event.is_param]
    · subst h1; rfl
  · simp [alert_exit] at h
    rcases h with h | h | h <;> subst h <;> rfl

/-! ## C3 -/

/-- The whole program when a check of the checks stage fails. -/
theorem main_failing_run (argv : List String) (channel : Int) (w : World)
    (h : first_arg_is argv "--help" = false) (hv : (run_checks channel w).val = false) :
    preflight_check_main argv channel w =
      Res.prepend (run_checks channel w).events (system_eval false (fail_on_error argv) w) := by
  rw [main_run argv channel w h, hv, run_checks_world]

/-- C3: in a run that reaches the checks (first argument not `--help`), if the
check of sensor `k` fails then no call of the run opens or queries a sensor
after `k` in the order Magnetometer, Accelerometer, Gyroscope, Barometer, and
the run emits exactly one sensor-failure message; when every sensor before `k`
passes, that message names `k`. -/
theorem C3_fail_fast (argv : List String) (channel : Int) (w : World) (k : Sensor)
    (hrun : first_arg_is argv "--help" = false) (hk : sensor_fails w k = true) :
    (∀ s : Sensor, k.rank < s.rank →
      ∀ e ∈ (preflight_check_main argv channel w).events, e.touches s.device = false) ∧
    ∃ m, (log_msgs (preflight_check_main argv channel w).events).filter Msg.is_sensor_fail = [m] ∧
      ((∀ s : Sensor, s.rank < k.rank → sensor_fails w s = false) → m.sensor = some k) := by
  have hval : (run_checks channel w).val = false := by
    rw [run_checks_run]
    split_ifs with h1 h2 h3 h4 <;> try rfl
    cases k <;> simp [sensor_fails] at hk
    · omega
    · exact absurd hk h3
    · exact absurd hk h4
  rw [main_failing_run argv channel w hrun hval]
  simp only [Res.prepend, List.mem_append, log_msgs_append, alert_stage_log, List.append_nil]
  rw [run_checks_run] at hval ⊢
  split_ifs at hval ⊢ with h1 h2 h3 h4
  · refine ⟨?_, Msg.SENSOR_FAIL_NO_MAG, by simp [log_msgs, checks_prelude, Msg.is_sensor_fail], ?_⟩
    · intro s hs e he
      rcases he with he | he
      · cases k <;> cases s <;> simp [Sensor.rank] at hs <;>
          simp [checks_prelude] at he <;> casesm* _ ∨ _ <;> subst_vars <;>
          simp [Event.touches, Sensor.device]
      · exact alert_stage_touches _ w s e he
    · intro hp
      cases k
      · rfl
      · have := hp Sensor.Mag (by decide); simp [sensor_fails] at this; omega
      · have := hp Sensor.Mag (by decide); simp [sensor_fails] at this; omega
      · simp [sensor_fails] at hk
  · refine ⟨?_, Msg.SENSOR_FAIL_MAG_CHECK_CAL, by simp [log_msgs, checks_prelude, Msg.is_sensor_fail], ?_⟩
    · intro s hs e he
      rcases he with he | he
      · cases k <;> cases s <;> simp [Sensor.rank] at hs <;>
          simp [checks_prelude] at he <;> casesm* _ ∨ _ <;> subst_vars <;>
          simp [Event.touches, Sensor.device]
      · exact alert_stage_touches _ w s e he
    · intro hp
      cases k
      · rfl
      · have := hp Sensor.Mag (by decide); simp [sensor_fails] at this; exact absurd this.2 h2
      · have := hp Sensor.Mag (by decide); simp [sensor_fails] at this; exact absurd this.2 h2
      · simp [sensor_fails] at hk
  · refine ⟨?_, Msg.SENSOR_FAIL_ACCEL_CHECK_CAL, by simp [log_msgs, checks_prelude, Msg.is_sensor_fail], ?_⟩
    · intro s hs e he
      rcases he with he | he
      · cases k
        · simp [sensor_fails] at hk
          rcases hk with hk | hk
          · omega
          · exact absurd hk h2
        all_goals
          cases s <;> simp [Sensor.rank] at hs <;>
          simp [checks_prelude] at he <;> casesm* _ ∨ _ <;> subst_vars <;>
          simp [Event.touches, Sensor.device]
      · exact alert_stage_touches _ w s e he
    · intro hp
      cases k
      · simp [sensor_fails] at hk
        rcases hk with hk | hk
        · omega
        · exact absurd hk h2
      · rfl
      · have := hp Sensor.Accel (by decide); simp [sensor_fails] at this; exact absurd this h3
      · simp [sensor_fails] at hk
  · refine ⟨?_, Msg.SENSOR_FAIL_GYRO_CHECK_CAL, by simp [log_msgs, checks_prelude, Msg.is_sensor_fail], ?_⟩
    · intro s hs e he
      rcases he with he | he
      · cases k
        · simp [sensor_fails] at hk
          rcases hk with hk | hk
          · omega
          · exact absurd hk h2
        · simp [sensor_fails] at hk
          exact absurd hk h3
        all_goals
          cases s <;> simp [Sensor.rank] at hs <;>
          simp [checks_prelude] at he <;> casesm* _ ∨ _ <;> subst_vars <;>
          simp [Event.touches, Sensor.device]
      · exact alert_stage_touches _ w s e he
    · intro hp
      cases k
      · simp [sensor_fails] at hk
        rcases hk with hk | hk
        · omega
        · exact absurd hk h2
      · simp [sensor_fails] at hk
        exact absurd hk h3
      · rfl
      · simp [sensor_fails] at hk
  · exfalso
    cases k <;> simp [sensor_fails] at hk
    · omega
    · exact absurd hk h3
    · exact absurd hk h4

/-- C3, witness: the magnetometer self-test returns 1 in a run without
arguments. -/
theorem C3_fail_fast_witness :
    (∀ s : Sensor, Sensor.Mag.rank < s.rank →
      ∀ e ∈ (preflight_check_main ["preflight_check"] 0 (world_with good_store 1)).events,
        e.touches s.device = false) ∧
    ∃ m, (log_msgs (preflight_check_main ["preflight_check"] 0
        (world_with good_store 1)).events).filter Msg.is_sensor_fail = [m] ∧
      ((∀ s : Sensor, s.rank < Sensor.Mag.rank → sensor_fails (world_with good_store 1) s = false) →
        m.sensor = some Sensor.Mag) :=
  C3_fail_fast ["preflight_check"] 0 (world_with good_store 1) Sensor.Mag (by decide) (by decide)

/-! ## The messages of the RC check -/

theorem log_msgs_paced (ms : List Msg) : log_msgs (paced ms) = ms := by
  induction ms with
  | nil => rfl
  | cons m ms ih =>
    simp only [paced, List.flatMap_cons] at ih ⊢
    rw [log_msgs_append, ih]
    rfl

theorem log_msgs_chan_events (channel : Int) (p : ParamName → CFloat) (i : Nat) :
    log_msgs (chan_events channel p i) = chan_all_msgs channel p i := by
  unfold chan_events
  rw [log_msgs_append, log_msgs_paced]
  rfl

theorem log_msgs_flatMap (f : Nat → List Event) (l : List Nat) :
    log_msgs (l.flatMap f) = l.flatMap (fun j => log_msgs (f j)) := by
  induction l with
  | nil => rfl
  | cons a l ih => simp only [List.flatMap_cons, log_msgs_append, ih]

theorem rc_log (channel : Int) (w : World) :
    log_msgs (rc_calibration channel w).events =
      (List.range' 0 12).flatMap (chan_all_msgs channel w.params) := by
  rw [rc_calibration_run]
  simp only [log_msgs_flatMap, log_msgs_chan_events]

theorem flatMap_single {α : Type} (f : Nat → List α) (a : Nat) (l : List Nat) (hl : l.Nodup)
    (ha : a ∈ l) (h : ∀ x ∈ l, x ≠ a → f x = []) : l.flatMap f = f a := by
  induction l with
  | nil => simp at ha
  | cons b l ih =>
    rw [List.nodup_cons] at hl
    rw [List.flatMap_cons]
    by_cases hb : b = a
    · subst hb
      have : l.flatMap f = [] := by
        rw [List.flatMap_eq_nil_iff]
        intro x hx
        exact h x (List.mem_cons_of_mem _ hx) (fun e => hl.1 (e ▸ hx))
      rw [this, List.append_nil]
    · rw [h b (List.mem_cons_self _ _) hb, List.nil_append]
      rcases List.mem_cons.mp ha with e | e
      · exact absurd e.symm hb
      · exact ih hl.2 e (fun x hx => h x (List.mem_cons_of_mem _ hx))

theorem chan_msgs_single (p : ParamName → CFloat) (j : Nat) (v : Invariant)
    (hv : v.fires p (j + 1) = true) (ho : ∀ u : Invariant, u ≠ v → u.fires p (j + 1) = false) :
    chan_msgs p j = [v.msg ((j : Int) + 1)] := by
  have h1 := ho Invariant.min_floor
  have h2 := ho Invariant.max_ceiling
  have h3 := ho Invariant.trim_ge_min
  have h4 := ho Invariant.trim_le_max
  have h5 := ho Invariant.dz_ceiling
  cases v <;> simp [Invariant.fires] at hv h1 h2 h3 h4 h5 <;>
    simp [chan_msgs, Invariant.msg, *]

/-! ## C4 -/

theorem single_violation_run (channel : Int) (w : World) (c : Nat) (v : Invariant)
    (h1 : 1 ≤ c) (h12 : c ≤ 12)
    (hv : v.fires w.params c = true)
    (ho : ∀ u : Invariant, u ≠ v → u.fires w.params c = false)
    (hr : ∀ d, 1 ≤ d → d ≤ 12 → d ≠ c → ∀ u : Invariant, u.fires w.params d = false) :
    (rc_calibration channel w).val = false ∧
    log_msgs (rc_calibration channel w).events =
      [v.msg (c : Int), Msg.ERROR_config 1 (channel + 1)] := by
  obtain ⟨j, rfl⟩ : ∃ j, c = j + 1 := ⟨c - 1, by omega⟩
  have hj : chan_msgs w.params j = [v.msg ((j : Int) + 1)] := chan_msgs_single _ j v hv ho
  have hrest : ∀ x ∈ List.range' 0 12, x ≠ j → chan_msgs w.params x = [] := by
    intro x hx hxj
    rw [List.mem_range'_1] at hx
    rw [chan_msgs_nil_iff]
    have := hr (x + 1) (by omega) (by omega) (by omega)
    exact ⟨this Invariant.min_floor, this Invariant.max_ceiling, this Invariant.trim_ge_min,
      this Invariant.trim_le_max, this Invariant.dz_ceiling⟩
  constructor
  · rw [Bool.eq_false_iff]
    intro hok
    rw [rc_calibration_run] at hok
    simp only [List.all_eq_true, decide_eq_true_eq] at hok
    have := hok j (by rw [List.mem_range'_1]; omega)
    rw [hj] at this
    exact absurd this (by simp)
  · rw [rc_log, flatMap_single _ j _ (List.nodup_range' 0 12) (by rw [List.mem_range'_1]; omega)]
    · simp [chan_all_msgs, hj]
    · intro x hx hxj
      simp [chan_all_msgs, hrest x hx hxj]

/-- C4, counterexample: with deadzone NaN on channel 1 and every other value
as in the success scenario, channel 1 breaks the deadzone ceiling and nothing
else, every other channel satisfies all five invariants, and yet `rc_ok` is
true and no message is emitted. -/
theorem C4_nan_deadzone_silent :
    Invariant.dz_ceiling.holds (set_param good_store ⟨1, Field.DZ⟩ CFloat.nan) 1 = false ∧
    (∀ u : Invariant, u ≠ Invariant.dz_ceiling →
      u.holds (set_param good_store ⟨1, Field.DZ⟩ CFloat.nan) 1 = true) ∧
    (∀ d, 1 ≤ d → d ≤ 12 → d ≠ 1 → ∀ u : Invariant,
      u.holds (set_param good_store ⟨1, Field.DZ⟩ CFloat.nan) d = true) ∧
    (rc_calibration 0 (world_with (set_param good_store ⟨1, Field.DZ⟩ CFloat.nan) 0)).val = true ∧
    log_msgs (rc_calibration 0 (world_with (set_param good_store ⟨1, Field.DZ⟩ CFloat.nan) 0)).events = [] := by
  have hq : ∀ c, 1 ≤ c → c ≤ 12 →
      no_check_fires (world_with (set_param good_store ⟨1, Field.DZ⟩ CFloat.nan) 0).params c := by
    intro c _ _
    by_cases hc : c = 1 <;>
      simp [no_check_fires, world_with, set_param, good_store, uniform_store, CFloat.lt, CFloat.gt,
        CFloat.ofNat, hc] <;> norm_num
  refine ⟨by simp [Invariant.holds, set_param, CFloat.le], ?_, ?_, (rc_ok_iff 0 _).mpr hq, ?_⟩
  · intro u hu
    cases u <;> simp [Invariant.holds, set_param, good_store, uniform_store, CFloat.le, CFloat.ge,
      CFloat.ofNat] at hu ⊢ <;> norm_num
  · intro d _ _ hd u
    cases u <;> simp [Invariant.holds, set_param, good_store, uniform_store, CFloat.le, CFloat.ge,
      CFloat.ofNat, hd] <;> norm_num
  · rw [rc_log, List.flatMap_eq_nil_iff]
    intro j hj
    rw [List.mem_range'_1] at hj
    have : chan_msgs (world_with (set_param good_store ⟨1, Field.DZ⟩ CFloat.nan) 0).params j = [] :=
      (chan_msgs_nil_iff _ j).mpr (hq (j + 1) (by omega) (by omega))
    simp [chan_all_msgs, this]

/-- C4, amended: if exactly one of the five comparisons (`min < 500`,
`max > 2500`, `trim < min`, `trim > max`, `deadzone > 500`) holds on channel
`c` in 1..12 and none holds on any other channel, then `rc_ok` is false and
the messages are exactly the violation message of that check for channel `c`
followed by one summary message with count 1. -/
theorem C4_single_violation (channel : Int) (w : World) (c : Nat) (v : Invariant)
    (h1 : 1 ≤ c) (h12 : c ≤ 12)
    (hv : v.fires w.params c = true)
    (ho : ∀ u : Invariant, u ≠ v → u.fires w.params c = false)
    (hr : ∀ d, 1 ≤ d → d ≤ 12 → d ≠ c → ∀ u : Invariant, u.fires w.params d = false) :
    (rc_calibration channel w).val = false ∧
    ∃ n : Int, log_msgs (rc_calibration channel w).events =
      [v.msg (c : Int), Msg.ERROR_config 1 n] :=
  ⟨(single_violation_run channel w c v h1 h12 hv ho hr).1, channel + 1,
    (single_violation_run channel w c v h1 h12 hv ho hr).2⟩

/-- C4, witness: only `RC2_MIN = 400` is out of range. -/
theorem C4_single_violation_witness :
    (rc_calibration 0 (world_with (set_param good_store ⟨2, Field.MIN⟩ (CFloat.fin 400)) 0)).val = false ∧
    ∃ n : Int,
      log_msgs (rc_calibration 0 (world_with (set_param good_store ⟨2, Field.MIN⟩ (CFloat.fin 400)) 0)).events =
        [Msg.ERR_RC_MIN 2, Msg.ERROR_config 1 n] := by
  have h := C4_single_violation 0 (world_with (set_param good_store ⟨2, Field.MIN⟩ (CFloat.fin 400)) 0)
    2 Invariant.min_floor (by decide) (by decide)
    (by simp [Invariant.fires, world_with, set_param, CFloat.lt, CFloat.ofNat]; norm_num)
    (by
      intro u hu
      cases u <;> simp [Invariant.fires, world_with, set_param, good_store, uniform_store,
        CFloat.lt, CFloat.gt, CFloat.ofNat] at hu ⊢ <;> norm_num)
    (by
      intro d _ _ hd u
      cases u <;> simp [Invariant.fires, world_with, set_param, good_store, uniform_store,
        CFloat.lt, CFloat.gt, CFloat.ofNat, hd] <;> norm_num)
  simpa [Invariant.msg] using h

/-! ## C5 -/

theorem rc_channel_log (channel : Int) (i : Nat) (w : World) :
    log_msgs (rc_channel channel i w).events = chan_all_msgs channel w.params i := by
  rw [rc_channel_run, log_msgs_chan_events]

theorem mem_chan_all_msgs (channel : Int) (p : ParamName → CFloat) (i : Nat) (v : Invariant) :
    v.msg ((i : Int) + 1) ∈ chan_all_msgs channel p i ↔ v.fires p (i + 1) = true := by
  unfold chan_all_msgs chan_msgs
  rcases Bool.eq_false_or_eq_true (CFloat.lt (p ⟨i + 1, Field.MIN⟩) (CFloat.ofNat 500)) with h1 | h1 <;>
  rcases Bool.eq_false_or_eq_true (CFloat.gt (p ⟨i + 1, Field.MAX⟩) (CFloat.ofNat 2500)) with h2 | h2 <;>
  rcases Bool.eq_false_or_eq_true (CFloat.lt (p ⟨i + 1, Field.TRIM⟩) (p ⟨i + 1, Field.MIN⟩)) with h3 | h3 <;>
  rcases Bool.eq_false_or_eq_true (CFloat.gt (p ⟨i + 1, Field.TRIM⟩) (p ⟨i + 1, Field.MAX⟩)) with h4 | h4 <;>
  rcases Bool.eq_false_or_eq_true (CFloat.gt (p ⟨i + 1, Field.DZ⟩) (CFloat.ofNat 500)) with h5 | h5 <;>
  cases v <;> simp [h1, h2, h3, h4, h5, Invariant.msg, Invariant.fires]

/-- C5: in the pass for loop index `i` (channel `i + 1`), each violation
message is emitted exactly when its strict comparison holds: `min < 500`,
`max > 2500`, `trim < min`, `trim > max`, `deadzone > 500`.  Hence the bounds
are inclusive: `min = 500` passes and `min = 499.999` fails the floor check,
`max = 2500` passes and `max = 2500.001` fails the ceiling check, and
`trim = min`, `trim = max` pass their checks. -/
theorem C5_inclusive_bounds (channel : Int) (i : Nat) (w : World) (v : Invariant) :
    (v.msg ((i : Int) + 1) ∈ log_msgs (rc_channel channel i w).events ↔ v.fires w.params (i + 1) = true) ∧
    (∀ q : ℚ, w.params ⟨i + 1, Field.MIN⟩ = CFloat.fin q →
      (Msg.ERR_RC_MIN ((i : Int) + 1) ∈ log_msgs (rc_channel channel i w).events ↔ q < 500)) ∧
    (∀ q : ℚ, w.params ⟨i + 1, Field.MAX⟩ = CFloat.fin q →
      (Msg.ERR_RC_MAX ((i : Int) + 1) ∈ log_msgs (rc_channel channel i w).events ↔ 2500 < q)) ∧
    (∀ q : ℚ, w.params ⟨i + 1, Field.DZ⟩ = CFloat.fin q →
      (Msg.ERR_RC_DZ ((i : Int) + 1) ∈ log_msgs (rc_channel channel i w).events ↔ 500 < q)) ∧
    (w.params ⟨i + 1, Field.MIN⟩ = CFloat.fin 500 →
      Msg.ERR_RC_MIN ((i : Int) + 1) ∉ log_msgs (rc_channel channel i w).events) ∧
    (w.params ⟨i + 1, Field.MIN⟩ = CFloat.fin 499.999 →
      Msg.ERR_RC_MIN ((i : Int) + 1) ∈ log_msgs (rc_channel channel i w).events) ∧
    (w.params ⟨i + 1, Field.MAX⟩ = CFloat.fin 2500 →
      Msg.ERR_RC_MAX ((i : Int) + 1) ∉ log_msgs (rc_channel channel i w).events) ∧
    (w.params ⟨i + 1, Field.MAX⟩ = CFloat.fin 2500.001 →
      Msg.ERR_RC_MAX ((i : Int) + 1) ∈ log_msgs (rc_channel channel i w).events) ∧
    (w.params ⟨i + 1, Field.TRIM⟩ = w.params ⟨i + 1, Field.MIN⟩ →
      Msg.ERR_RC_TRIM_LT_MIN ((i : Int) + 1) ∉ log_msgs (rc_channel channel i w).events) ∧
    (w.params ⟨i + 1, Field.TRIM⟩ = w.params ⟨i + 1, Field.MAX⟩ →
      Msg.ERR_RC_TRIM_GT_MAX ((i : Int) + 1) ∉ log_msgs (rc_channel channel i w).events) := by
  rw [rc_channel_log]
  have hmin := mem_chan_all_msgs channel w.params i Invariant.min_floor
  have hmax := mem_chan_all_msgs channel w.params i Invariant.max_ceiling
  have hlo := mem_chan_all_msgs channel w.params i Invariant.trim_ge_min
  have hhi := mem_chan_all_msgs channel w.params i Invariant.trim_le_max
  have hdz := mem_chan_all_msgs channel w.params i Invariant.dz_ceiling
  simp only [Invariant.msg, Invariant.fires] at hmin hmax hlo hhi hdz
  refine ⟨mem_chan_all_msgs channel w.params i v, ?_, ?_, ?_, ?_, ?_, ?_, ?_, ?_, ?_⟩
  · intro q hq; rw [hmin, hq]; simp [CFloat.lt, CFloat.ofNat]
  · intro q hq; rw [hmax, hq]; simp [CFloat.gt, CFloat.lt, CFloat.ofNat]
  · intro q hq; rw [hdz, hq]; simp [CFloat.gt, CFloat.lt, CFloat.ofNat]
  · intro hq; rw [hmin, hq]; simp [CFloat.lt, CFloat.ofNat]
  · intro hq; rw [hmin, hq]; simp [CFloat.lt, CFloat.ofNat]; norm_num
  · intro hq; rw [hmax, hq]; simp [CFloat.gt, CFloat.lt, CFloat.ofNat]
  · intro hq; rw [hmax, hq]; simp [CFloat.gt, CFloat.lt, CFloat.ofNat]; norm_num
  · intro hq; rw [hlo, hq]; simp [CFloat.lt_irrefl]
  · intro hq; rw [hhi, hq]; simp [CFloat.gt, CFloat.lt_irrefl]

/-- C5, witness: on a store with `RC1_MIN = 500` the pass for channel 1 emits
no floor message, and with `RC1_MIN = 499.999` it does. -/
theorem C5_inclusive_bounds_witness :
    Msg.ERR_RC_MIN 1 ∉ log_msgs (rc_channel 0 0
      (world_with (set_param good_store ⟨1, Field.MIN⟩ (CFloat.fin 500)) 0)).events ∧
    Msg.ERR_RC_MIN 1 ∈ log_msgs (rc_channel 0 0
      (world_with (set_param good_store ⟨1, Field.MIN⟩ (CFloat.fin 499.999)) 0)).events := by
  constructor
  · have h := (C5_inclusive_bounds 0 0
      (world_with (set_param good_store ⟨1, Field.MIN⟩ (CFloat.fin 500)) 0) Invariant.min_floor).2.2.2.2.1
      (by simp [world_with, set_param])
    simpa using h
  · have h := (C5_inclusive_bounds 0 0
      (world_with (set_param good_store ⟨1, Field.MIN⟩ (CFloat.fin 499.999)) 0) Invariant.min_floor).2.2.2.2.2.1
      (by simp [world_with, set_param])
    simpa using h

/-! ## C6 -/

/-- C6: on a failing verdict the alert stage runs the entry calls, then
exactly 150 cycles, each a command to the blue LED, a command to the amber
LED, at most one tone command and a sleep of 100 ms, then the closing calls;
it sleeps 100 ms exactly 150 times; and the exit status is 1 when
`fail_on_error` is set and 0 when it is not. -/
theorem C6_alert_loop (foe : Bool) (w : World) :
    (∃ cycles : List (List Event),
      cycles = alert_cycles 150 0 w.last_blue.flip w.last_amber ∧
      cycles.length = 150 ∧ (∀ c ∈ cycles, is_cycle c) ∧
      (system_eval false foe w).events = alert_entry w.last_blue ++ cycles.flatten ++ alert_exit) ∧
    (system_eval false foe w).events.count (Event.usleep 100000) = 150 ∧
    (system_eval false foe w).val = (if foe then 1 else 0) ∧
    (system_eval false false w).val = 0 ∧
    (system_eval false true w).val = 1 := by
  refine ⟨⟨_, rfl, alert_cycles_length _ _ _ _, alert_cycles_is_cycle _ _ _ _, ?_⟩, ?_, ?_, ?_, ?_⟩
  · rw [system_eval_false_run]
  · rw [system_eval_false_run]
    simp only [List.count_append, alert_cycles_count]
    simp [alert_entry, alert_exit, List.count_cons]
  · rw [system_eval_false_run]
  · rw [system_eval_false_run]; rfl
  · rw [system_eval_false_run]; rfl

/-! ## The calls of the checks stage -/

theorem chan_events_not_output (channel : Int) (p : ParamName → CFloat) (i : Nat) :
    ∀ e ∈ chan_events channel p i, e.is_output = false := by
  intro e he
  unfold chan_events at he
  rcases List.mem_append.mp he with h | h
  · simp [chan_reads] at h
    casesm* _ ∨ _ <;> subst_vars <;> rfl
  · simp only [paced, List.mem_flatMap] at h
    obtain ⟨m, _, hm⟩ := h
    simp at hm
    rcases hm with hm | hm <;> subst hm <;> rfl

theorem rc_events_not_output (channel : Int) (w : World) :
    ∀ e ∈ (rc_calibration channel w).events, e.is_output = false := by
  rw [rc_calibration_run]
  intro e he
  simp only [List.mem_flatMap] at he
  obtain ⟨j, _, hj⟩ := he
  exact chan_events_not_output channel w.params j e hj

theorem prelude_not_output : ∀ e ∈ checks_prelude, e.is_output = false := by
  intro e he
  simp [checks_prelude] at he
  casesm* _ ∨ _ <;> subst_vars <;> rfl

theorem run_checks_pass_run (channel : Int) (w : World)
    (hopen : 0 ≤ w.open_ret Device.MAG_DEVICE_PATH)
    (hmag : w.selftest_ret Device.MAG_DEVICE_PATH = OK)
    (hacc : w.selftest_ret Device.ACCEL_DEVICE_PATH = OK)
    (hgyr : w.selftest_ret Device.GYRO_DEVICE_PATH = OK) :
    run_checks channel w =
      ⟨(rc_calibration channel w).val,
       checks_prelude ++ [Event.selftest Device.MAG_DEVICE_PATH, Event.dev_close,
        Event.dev_open Device.ACCEL_DEVICE_PATH, Event.selftest Device.ACCEL_DEVICE_PATH,
        Event.dev_close, Event.dev_open Device.GYRO_DEVICE_PATH,
        Event.selftest Device.GYRO_DEVICE_PATH, Event.dev_close,
        Event.dev_open Device.BARO_DEVICE_PATH] ++ (rc_calibration channel w).events, w⟩ := by
  rw [run_checks_run]
  have h1 : ¬ w.open_ret Device.MAG_DEVICE_PATH < 0 := by omega
  simp [h1, hmag, hacc, hgyr]

/-! ## C7 -/

/-- C7: in a run whose first argument is not `--help`, if the magnetometer
opens, the three self-tests return `OK` and every channel 1..12 has
`min = 1000`, `trim = 1500`, `max = 2000`, `deadzone = 10` (whatever the
reverse flags and the other arguments), then `system_ok` is true, no message
is logged, no LED or tone command is issued, nothing follows the checks, and
the exit status is 0. -/
theorem C7_success (argv : List String) (channel : Int) (w : World)
    (hrun : first_arg_is argv "--help" = false)
    (hopen : 0 ≤ w.open_ret Device.MAG_DEVICE_PATH)
    (hmag : w.selftest_ret Device.MAG_DEVICE_PATH = OK)
    (hacc : w.selftest_ret Device.ACCEL_DEVICE_PATH = OK)
    (hgyr : w.selftest_ret Device.GYRO_DEVICE_PATH = OK)
    (hp : ∀ c, 1 ≤ c → c ≤ 12 →
      w.params ⟨c, Field.MIN⟩ = CFloat.fin 1000 ∧ w.params ⟨c, Field.TRIM⟩ = CFloat.fin 1500 ∧
      w.params ⟨c, Field.MAX⟩ = CFloat.fin 2000 ∧ w.params ⟨c, Field.DZ⟩ = CFloat.fin 10) :
    (run_checks channel w).val = true ∧
    log_msgs (preflight_check_main argv channel w).events = [] ∧
    (∀ e ∈ (preflight_check_main argv channel w).events, e.is_output = false) ∧
    (preflight_check_main argv channel w).events = (run_checks channel w).events ∧
    (preflight_check_main argv channel w).val = 0 := by
  have hquiet : ∀ c, 1 ≤ c → c ≤ 12 → no_check_fires w.params c := by
    intro c h1 h2
    obtain ⟨a, b, c', d⟩ := hp c h1 h2
    simp [no_check_fires, a, b, c', d, CFloat.lt, CFloat.gt, CFloat.ofNat]
    norm_num
  have hrc : (rc_calibration channel w).val = true := (rc_ok_iff channel w).mpr hquiet
  have hval : (run_checks channel w).val = true :=
    (run_checks_val_iff channel w).mpr ⟨⟨hopen, hmag, hacc, hgyr⟩, hrc⟩
  have hmain : (preflight_check_main argv channel w).events = (run_checks channel w).events := by
    rw [main_run argv channel w hrun, hval, system_eval_true_run]
    simp [Res.prepend]
  have hnil : ∀ j ∈ List.range' 0 12, chan_all_msgs channel w.params j = [] := by
    intro j hj
    rw [List.mem_range'_1] at hj
    have : chan_msgs w.params j = [] :=
      (chan_msgs_nil_iff w.params j).mpr (hquiet (j + 1) (by omega) (by omega))
    simp [chan_all_msgs, this]
  refine ⟨hval, ?_, ?_, hmain, ?_⟩
  · rw [hmain, run_checks_pass_run channel w hopen hmag hacc hgyr]
    simp only [log_msgs_append, rc_log]
    rw [List.flatMap_eq_nil_iff.mpr hnil]
    simp [log_msgs, checks_prelude]
  · rw [hmain, run_checks_pass_run channel w hopen hmag hacc hgyr]
    intro e he
    simp only [List.mem_append] at he
    rcases he with (h | h) | h
    · exact prelude_not_output e h
    · simp at h
      casesm* _ ∨ _ <;> subst_vars <;> rfl
    · exact rc_events_not_output channel w e h
  · rw [main_run argv channel w hrun, hval, system_eval_true_run]
    rfl

/-- C7, witness: the success scenario with and without `--fail-on-error`. -/
theorem C7_success_witness :
    ((run_checks 0 (world_with good_store 0)).val = true ∧
      log_msgs (preflight_check_main ["preflight_check"] 0 (world_with good_store 0)).events = [] ∧
      (preflight_check_main ["preflight_check"] 0 (world_with good_store 0)).val = 0) ∧
    (log_msgs (preflight_check_main ["preflight_check", "--fail-on-error"] 0
        (world_with good_store 0)).events = [] ∧
      (preflight_check_main ["preflight_check", "--fail-on-error"] 0 (world_with good_store 0)).val = 0) := by
  have hp : ∀ c, 1 ≤ c → c ≤ 12 →
      (world_with good_store 0).params ⟨c, Field.MIN⟩ = CFloat.fin 1000 ∧
      (world_with good_store 0).params ⟨c, Field.TRIM⟩ = CFloat.fin 1500 ∧
      (world_with good_store 0).params ⟨c, Field.MAX⟩ = CFloat.fin 2000 ∧
      (world_with good_store 0).params ⟨c, Field.DZ⟩ = CFloat.fin 10 := by
    intro c _ _
    exact ⟨rfl, rfl, rfl, rfl⟩
  have h1 := C7_success ["preflight_check"] 0 (world_with good_store 0) (by decide) (by decide)
    rfl rfl rfl hp
  have h2 := C7_success ["preflight_check", "--fail-on-error"] 0 (world_with good_store 0) (by decide)
    (by decide) rfl rfl rfl hp
  exact ⟨⟨h1.1, h1.2.1, h1.2.2.2.2⟩, ⟨h2.2.1, h2.2.2.2.2⟩⟩

/-! ## C8 -/

/-- C8: in a run whose first argument is not `--help`, if the magnetometer
opens and its self-test does not return `OK` then, whatever the parameter
store holds, the only message logged is the magnetometer one, no call opens
or queries the accelerometer, gyroscope or barometer, no parameter is read,
the alert stage follows the failed test with its 150 sleeps of 100 ms, and
the exit status is 1 with `--fail-on-error` as first argument and 0 without. -/
theorem C8_mag_failure (argv : List String) (channel : Int) (w : World)
    (hrun : first_arg_is argv "--help" = false)
    (hopen : 0 ≤ w.open_ret Device.MAG_DEVICE_PATH)
    (hmag : w.selftest_ret Device.MAG_DEVICE_PATH ≠ OK) :
    log_msgs (preflight_check_main argv channel w).events = [Msg.SENSOR_FAIL_MAG_CHECK_CAL] ∧
    Msg.SENSOR_FAIL_MAG_CHECK_CAL.sensor = some Sensor.Mag ∧
    (∀ s : Sensor, s ≠ Sensor.Mag →
      ∀ e ∈ (preflight_check_main argv channel w).events, e.touches s.device = false) ∧
    (∀ e ∈ (preflight_check_main argv channel w).events, e.is_param = false) ∧
    (preflight_check_main argv channel w).events =
      (checks_prelude ++ [Event.selftest Device.MAG_DEVICE_PATH,
        Event.warn Warning.magnetometer_calibration_missing_or_bad,
        Event.mavlink_log_critical Msg.SENSOR_FAIL_MAG_CHECK_CAL]) ++
      (system_eval false (fail_on_error argv) w).events ∧
    (preflight_check_main argv channel w).events.count (Event.usleep 100000) = 150 ∧
    (preflight_check_main argv channel w).val = (if fail_on_error argv then 1 else 0) := by
  have h1 : ¬ w.open_ret Device.MAG_DEVICE_PATH < 0 := by omega
  have hchk : run_checks channel w =
      ⟨false, checks_prelude ++ [Event.selftest Device.MAG_DEVICE_PATH,
        Event.warn Warning.magnetometer_calibration_missing_or_bad,
        Event.mavlink_log_critical Msg.SENSOR_FAIL_MAG_CHECK_CAL], w⟩ := by
    rw [run_checks_run]
    simp [h1, hmag]
  have hmain := main_failing_run argv channel w hrun (by rw [hchk])
  rw [hchk] at hmain
  have hev : (preflight_check_main argv channel w).events =
      (checks_prelude ++ [Event.selftest Device.MAG_DEVICE_PATH,
        Event.warn Warning.magnetometer_calibration_missing_or_bad,
        Event.mavlink_log_critical Msg.SENSOR_FAIL_MAG_CHECK_CAL]) ++
      (system_eval false (fail_on_error argv) w).events := by
    rw [hmain]; rfl
  refine ⟨?_, rfl, ?_, ?_, hev, ?_, ?_⟩
  · rw [hev, log_msgs_append, alert_stage_log]
    simp [log_msgs, checks_prelude]
  · intro s hs e he
    rw [hev] at he
    rcases List.mem_append.mp he with h | h
    · cases s <;> simp at hs <;> simp [checks_prelude] at h <;>
        casesm* _ ∨ _ <;> subst_vars <;> simp [Event.touches, Sensor.device]
    · exact alert_stage_touches _ w s e h
  · intro e he
    rw [hev] at he
    rcases List.mem_append.mp he with h | h
    · simp [checks_prelude] at h
      casesm* _ ∨ _ <;> subst_vars <;> rfl
    · exact alert_stage_no_param _ w e h
  · rw [hev, List.count_append, system_eval_false_run]
    simp only [List.count_append, alert_cycles_count]
    simp [checks_prelude, alert_entry, alert_exit, List.count_cons]
  · rw [hmain, system_eval_false_run]
    rfl

/-- C8, witness: the magnetometer self-test returns 1, the store has an
invalid calibration, and `--fail-on-error` is the first argument. -/
theorem C8_mag_failure_witness :
    log_msgs (preflight_check_main ["preflight_check", "--fail-on-error"] 0
      (world_with (set_param good_store ⟨2, Field.MIN⟩ (CFloat.fin 400)) 1)).events =
      [Msg.SENSOR_FAIL_MAG_CHECK_CAL] ∧
    (preflight_check_main ["preflight_check", "--fail-on-error"] 0
      (world_with (set_param good_store ⟨2, Field.MIN⟩ (CFloat.fin 400)) 1)).val = 1 := by
  have h := C8_mag_failure ["preflight_check", "--fail-on-error"] 0
    (world_with (set_param good_store ⟨2, Field.MIN⟩ (CFloat.fin 400)) 1)
    (by decide) (by decide) (by decide)
  exact ⟨h.1, h.2.2.2.2.2.2⟩

/-! ## C9 -/

/-- C9: the RC check leaves the world (parameter store included) as it found
it, a second run after the first gives the same `rc_ok` and the same calls in
the same order, and `rc_ok` and the calls depend on the world through the
parameter store only. -/
theorem C9_validator_deterministic (channel : Int) (w : World) :
    (rc_calibration channel w).world = w ∧
    (rc_calibration channel (rc_calibration channel w).world).val = (rc_calibration channel w).val ∧
    (rc_calibration channel (rc_calibration channel w).world).events =
      (rc_calibration channel w).events ∧
    log_msgs (rc_calibration channel (rc_calibration channel w).world).events =
      log_msgs (rc_calibration channel w).events ∧
    (∀ v : World, v.params = w.params →
      (rc_calibration channel v).val = (rc_calibration channel w).val ∧
      (rc_calibration channel v).events = (rc_calibration channel w).events) := by
  have hw : (rc_calibration channel w).world = w := by rw [rc_calibration_run]
  refine ⟨hw, by rw [hw], by rw [hw], by rw [hw], ?_⟩
  intro v hv
  rw [rc_calibration_run, rc_calibration_run, hv]
  exact ⟨rfl, rfl⟩

/-- C9, witness: two worlds with the same store and different sensors. -/
theorem C9_validator_deterministic_witness :
    (rc_calibration 0 (world_with good_store 1)).val = (rc_calibration 0 (world_with good_store 0)).val ∧
    (rc_calibration 0 (world_with good_store 1)).events =
      (rc_calibration 0 (world_with good_store 0)).events :=
  (C9_validator_deterministic 0 (world_with good_store 0)).2.2.2.2 (world_with good_store 1) rfl

/-! ## C10 -/

theorem first_arg_is_of_get (argv : List String) (s : String) (h : argv[1]? = some s) :
    first_arg_is argv s = true := by
  unfold first_arg_is
  match argv, h with
  | _ :: b :: _, h =>
    simp at h
    simp [h]

/-- C10: when the first argument is `--help` the program prints the usage
text and exits with status 1; it makes no other call, so no device is opened
or queried, no parameter is read, no message is logged and no LED or tone
command is issued, whatever the sensors and the parameter store are. -/
theorem C10_help (argv : List String) (channel : Int) (w : World)
    (h : argv[1]? = some "--help") :
    (preflight_check_main argv channel w).val = 1 ∧
    (preflight_check_main argv channel w).events = [Event.warn Warning.usage] ∧
    (∀ e ∈ (preflight_check_main argv channel w).events,
      (∀ d : Device, e.touches d = false) ∧ e.is_param = false ∧ e.is_output = false) ∧
    log_msgs (preflight_check_main argv channel w).events = [] ∧
    (preflight_check_main argv channel w).world = w := by
  rw [main_help_run argv channel w (first_arg_is_of_get argv _ h)]
  refine ⟨rfl, rfl, ?_, rfl, rfl⟩
  intro e he
  simp at he
  subst he
  exact ⟨fun _ => rfl, rfl, rfl⟩

/-- C10, witness: `preflight_check --help` with failing sensors and an
invalid store. -/
theorem C10_help_witness :
    (preflight_check_main ["preflight_check", "--help"] 0
      (world_with (set_param good_store ⟨2, Field.MIN⟩ (CFloat.fin 400)) 1)).val = 1 ∧
    (preflight_check_main ["preflight_check", "--help"] 0
      (world_with (set_param good_store ⟨2, Field.MIN⟩ (CFloat.fin 400)) 1)).events =
      [Event.warn Warning.usage] := by
  have h := C10_help ["preflight_check", "--help"] 0
    (world_with (set_param good_store ⟨2, Field.MIN⟩ (CFloat.fin 400)) 1) rfl
  exact ⟨h.1, h.2.1⟩

/-! ## C11 -/

theorem chan_msgs_eq_fired (p : ParamName → CFloat) (i : Nat) :
    chan_msgs p i = (fired p (i + 1)).map (Invariant.msg ((i : Int) + 1)) := by
  unfold chan_msgs fired Invariant.all
  rcases Bool.eq_false_or_eq_true (CFloat.lt (p ⟨i + 1, Field.MIN⟩) (CFloat.ofNat 500)) with h1 | h1 <;>
  rcases Bool.eq_false_or_eq_true (CFloat.gt (p ⟨i + 1, Field.MAX⟩) (CFloat.ofNat 2500)) with h2 | h2 <;>
  rcases Bool.eq_false_or_eq_true (CFloat.lt (p ⟨i + 1, Field.TRIM⟩) (p ⟨i + 1, Field.MIN⟩)) with h3 | h3 <;>
  rcases Bool.eq_false_or_eq_true (CFloat.gt (p ⟨i + 1, Field.TRIM⟩) (p ⟨i + 1, Field.MAX⟩)) with h4 | h4 <;>
  rcases Bool.eq_false_or_eq_true (CFloat.gt (p ⟨i + 1, Field.DZ⟩) (CFloat.ofNat 500)) with h5 | h5 <;>
  simp [List.filter, h1, h2, h3, h4, h5, Invariant.msg, Invariant.fires]

theorem rc_channel_msgs (channel : Int) (i : Nat) (w : World) :
    log_msgs (rc_channel channel i w).events =
      (fired w.params (i + 1)).map (Invariant.msg ((i : Int) + 1)) ++
        (if fired w.params (i + 1) = [] then []
         else [Msg.ERROR_config (fired w.params (i + 1)).length (channel + 1)]) := by
  rw [rc_channel_log, chan_all_msgs, chan_msgs_eq_fired]
  simp

theorem one_bad_min_log (channel : Int) (c : Nat) (h1 : 1 ≤ c) (h12 : c ≤ 12) :
    log_msgs (rc_calibration channel
      (world_with (set_param good_store ⟨c, Field.MIN⟩ (CFloat.fin 400)) 0)).events =
      [Msg.ERR_RC_MIN (c : Int), Msg.ERROR_config 1 (channel + 1)] := by
  have h := single_violation_run channel
    (world_with (set_param good_store ⟨c, Field.MIN⟩ (CFloat.fin 400)) 0) c Invariant.min_floor h1 h12
    (by simp [Invariant.fires, world_with, set_param, CFloat.lt, CFloat.ofNat]; norm_num)
    (by
      intro u hu
      cases u <;> simp [Invariant.fires, world_with, set_param, good_store, uniform_store,
        CFloat.lt, CFloat.gt, CFloat.ofNat] at hu ⊢ <;> norm_num)
    (by
      intro d _ _ hd u
      cases u <;> simp [Invariant.fires, world_with, set_param, good_store, uniform_store,
        CFloat.lt, CFloat.gt, CFloat.ofNat, hd] <;> norm_num)
  simpa [Invariant.msg] using h.2

/-- C11, what the code does: the pass for loop index `i` emits one message per
check whose comparison holds, in the order of the checks, and then, if there
is at least one, a single summary whose count is their number; but the
channel number of the summary is `channel + 1` and not `i + 1`.  With only
`RC1_MIN = 400` out of range and with only `RC2_MIN = 400` out of range the
summary carries the same number, so for no value of `channel` does it name
the offending channel in both runs. -/
theorem C11_summary_channel (channel : Int) :
    (∀ (i : Nat) (w : World),
      log_msgs (rc_channel channel i w).events =
        (fired w.params (i + 1)).map (Invariant.msg ((i : Int) + 1)) ++
          (if fired w.params (i + 1) = [] then []
           else [Msg.ERROR_config (fired w.params (i + 1)).length (channel + 1)])) ∧
    log_msgs (rc_calibration channel
      (world_with (set_param good_store ⟨1, Field.MIN⟩ (CFloat.fin 400)) 0)).events =
      [Msg.ERR_RC_MIN 1, Msg.ERROR_config 1 (channel + 1)] ∧
    log_msgs (rc_calibration channel
      (world_with (set_param good_store ⟨2, Field.MIN⟩ (CFloat.fin 400)) 0)).events =
      [Msg.ERR_RC_MIN 2, Msg.ERROR_config 1 (channel + 1)] ∧
    ¬ (channel + 1 = 1 ∧ channel + 1 = 2) := by
  refine ⟨fun i w => rc_channel_msgs channel i w, ?_, ?_, ?_⟩
  · simpa using one_bad_min_log channel 1 (by decide) (by decide)
  · simpa using one_bad_min_log channel 2 (by decide) (by decide)
  · omega

/-! ## Delays after messages -/

theorem delay_follows_paced_append (P : Msg → Bool) (ms : List Msg) (rest : List Event) :
    delay_follows P (paced ms ++ rest) = delay_follows P rest := by
  induction ms with
  | nil => rfl
  | cons m ms ih =>
    simp only [paced, List.flatMap_cons] at ih ⊢
    simp [delay_follows, ih]

theorem delay_follows_reads_append (P : Msg → Bool) (i : Nat) (rest : List Event) :
    delay_follows P (chan_reads i ++ rest) = delay_follows P rest := by
  simp [chan_reads, delay_follows]

theorem delay_follows_rc (P : Msg → Bool) (channel : Int) (p : ParamName → CFloat) (l : List Nat)
    (rest : List Event) :
    delay_follows P (l.flatMap (chan_events channel p) ++ rest) = delay_follows P rest := by
  induction l with
  | nil => rfl
  | cons a l ih =>
    rw [List.flatMap_cons, chan_events, List.append_assoc, List.append_assoc,
      delay_follows_reads_append, delay_follows_paced_append, ih]

theorem delay_follows_quiet (P : Msg → Bool) (es : List Event) (h : log_msgs es = []) :
    delay_follows P es = true := by
  induction es with
  | nil => rfl
  | cons e es ih =>
    cases e <;> simp_all [delay_follows, log_msgs]

/-! ## C13 -/

/-- C13: in a run of the RC check every logged message, violation or summary,
has `usleep(100000)` as the very next call, so no two messages follow each
other without a sleep of 100 ms between them. -/
theorem C13_validator_paced (channel : Int) (w : World) :
    delay_follows (fun _ => true) (rc_calibration channel w).events = true ∧
    (∀ (pre post : List Event) (m : Msg),
      (rc_calibration channel w).events = pre ++ Event.mavlink_log_critical m :: post →
      post.head? = some (Event.usleep 100000)) := by
  have key : ∀ rest, delay_follows (fun _ => true) ((rc_calibration channel w).events ++ rest) =
      delay_follows (fun _ => true) rest := by
    intro rest
    rw [rc_calibration_run]
    exact delay_follows_rc _ channel w.params _ rest
  have h1 : delay_follows (fun _ => true) (rc_calibration channel w).events = true := by
    have := key []
    simpa [delay_follows] using this
  refine ⟨h1, ?_⟩
  intro pre post m he
  rw [he] at h1
  clear he key
  induction pre with
  | nil =>
    simp [delay_follows] at h1
    exact h1.1
  | cons e pre ih =>
    apply ih
    cases e <;> simp_all [delay_follows]

/-- C13, witness: the four-violation store; the first message of the run is
followed by a sleep. -/
theorem C13_validator_paced_witness :
    ∃ pre post m, (rc_calibration 0 (world_with bad_store 0)).events =
        pre ++ Event.mavlink_log_critical m :: post ∧
      post.head? = some (Event.usleep 100000) := by
  have hev : (rc_calibration 0 (world_with bad_store 0)).events =
      chan_reads 0 ++ Event.mavlink_log_critical (Msg.ERR_RC_MIN 1) ::
        ((paced (chan_all_msgs 0 bad_store 0)).tail ++
          (List.range' 1 11).flatMap (chan_events 0 bad_store)) := by
    rw [rc_calibration_run]
    simp [List.range'_succ, chan_events, chan_all_msgs, chan_msgs, paced, world_with, bad_store,
      uniform_store, CFloat.lt, CFloat.gt, CFloat.ofNat]
    norm_num
  exact ⟨_, _, _, hev, (C13_validator_paced 0 (world_with bad_store 0)).2 _ _ _ hev⟩

/-! ## C12 -/

theorem delay_follows_quiet_append (P : Msg → Bool) (es rest : List Event) (h : log_msgs es = []) :
    delay_follows P (es ++ rest) = delay_follows P rest := by
  induction es with
  | nil => rfl
  | cons e es ih =>
    cases e <;> simp_all [delay_follows, log_msgs]

theorem sensor_fails_any (w : World)
    (h : (sensor_fails w Sensor.Mag || sensor_fails w Sensor.Accel || sensor_fails w Sensor.Gyro) = false) :
    ¬ w.open_ret Device.MAG_DEVICE_PATH < 0 ∧ w.selftest_ret Device.MAG_DEVICE_PATH = OK ∧
    w.selftest_ret Device.ACCEL_DEVICE_PATH = OK ∧ w.selftest_ret Device.GYRO_DEVICE_PATH = OK := by
  simp [sensor_fails] at h
  obtain ⟨⟨⟨a, b⟩, c⟩, d⟩ := h
  exact ⟨by omega, b, c, d⟩

/-- The checks stage when a sensor check fails: calls without message or
100 ms sleep, then the one sensor-failure message, and nothing after it. -/
theorem run_checks_sensor_fail (channel : Int) (w : World)
    (h : (sensor_fails w Sensor.Mag || sensor_fails w Sensor.Accel || sensor_fails w Sensor.Gyro) = true) :
    ∃ pre m, m.is_sensor_fail = true ∧ log_msgs pre = [] ∧
      pre.count (Event.usleep 100000) = 0 ∧ (∀ e ∈ pre, e.is_param = false) ∧
      run_checks channel w = ⟨false, pre ++ [Event.mavlink_log_critical m], w⟩ := by
  rw [run_checks_run]
  split_ifs with h1 h2 h3 h4
  · refine ⟨checks_prelude ++ [Event.warn Warning.failed_to_open_magnetometer],
      Msg.SENSOR_FAIL_NO_MAG, rfl, ?_, ?_, ?_, by simp⟩
    · simp [log_msgs, checks_prelude]
    · simp [checks_prelude, List.count_cons]
    · intro e he; simp [checks_prelude] at he; casesm* _ ∨ _ <;> subst_vars <;> rfl
  · refine ⟨checks_prelude ++ [Event.selftest Device.MAG_DEVICE_PATH,
      Event.warn Warning.magnetometer_calibration_missing_or_bad],
      Msg.SENSOR_FAIL_MAG_CHECK_CAL, rfl, ?_, ?_, ?_, by simp⟩
    · simp [log_msgs, checks_prelude]
    · simp [checks_prelude, List.count_cons]
    · intro e he; simp [checks_prelude] at he; casesm* _ ∨ _ <;> subst_vars <;> rfl
  · refine ⟨checks_prelude ++ [Event.selftest Device.MAG_DEVICE_PATH, Event.dev_close,
      Event.dev_open Device.ACCEL_DEVICE_PATH, Event.selftest Device.ACCEL_DEVICE_PATH,
      Event.warn Warning.accel_self_test_failed],
      Msg.SENSOR_FAIL_ACCEL_CHECK_CAL, rfl, ?_, ?_, ?_, by simp⟩
    · simp [log_msgs, checks_prelude]
    · simp [checks_prelude, List.count_cons]
    · intro e he; simp [checks_prelude] at he; casesm* _ ∨ _ <;> subst_vars <;> rfl
  · refine ⟨checks_prelude ++ [Event.selftest Device.MAG_DEVICE_PATH, Event.dev_close,
      Event.dev_open Device.ACCEL_DEVICE_PATH, Event.selftest Device.ACCEL_DEVICE_PATH,
      Event.dev_close, Event.dev_open Device.GYRO_DEVICE_PATH,
      Event.selftest Device.GYRO_DEVICE_PATH, Event.warn Warning.gyro_self_test_failed],
      Msg.SENSOR_FAIL_GYRO_CHECK_CAL, rfl, ?_, ?_, ?_, by simp⟩
    · simp [log_msgs, checks_prelude]
    · simp [checks_prelude, List.count_cons]
    · intro e he; simp [checks_prelude] at he; casesm* _ ∨ _ <;> subst_vars <;> rfl
  · exfalso
    simp [sensor_fails] at h
    rcases h with (h | h) | h
    · rcases h with h | h
      · exact h1 h
      · exact h2 h
    · exact h3 h
    · exact h4 h

theorem alert_stage_head (foe : Bool) (w : World) :
    (system_eval false foe w).events.head? = some Event.fflush := by
  rw [system_eval_false_run]
  simp [alert_entry]

theorem alert_stage_count (foe : Bool) (w : World) :
    (system_eval false foe w).events.count (Event.usleep 100000) = 150 := by
  rw [system_eval_false_run]
  simp only [List.count_append, alert_cycles_count]
  simp [alert_entry, alert_exit, List.count_cons]

theorem delay_follows_break (P : Msg → Bool) (pre rest : List Event) (m : Msg)
    (hpre : log_msgs pre = []) (hm : P m = true) (hrest : rest.head? = some Event.fflush) :
    delay_follows P (pre ++ Event.mavlink_log_critical m :: rest) = false := by
  rw [delay_follows_quiet_append P pre _ hpre]
  simp [delay_follows, hm, hrest]

/-- C12, counterexample: when the magnetometer self-test returns 1 in a run
without arguments, the call right after the message `SENSOR FAIL: MAG
CHECK/CAL` is `fflush`, not a sleep of 100 ms. -/
theorem C12_no_delay_after_message :
    delay_follows Msg.is_sensor_fail
      (preflight_check_main ["preflight_check"] 0 (world_with good_store 1)).events = false ∧
    ∃ pre post, (preflight_check_main ["preflight_check"] 0 (world_with good_store 1)).events =
      pre ++ Event.mavlink_log_critical Msg.SENSOR_FAIL_MAG_CHECK_CAL :: Event.fflush :: post := by
  have hchk : run_checks 0 (world_with good_store 1) =
      ⟨false, (checks_prelude ++ [Event.selftest Device.MAG_DEVICE_PATH,
        Event.warn Warning.magnetometer_calibration_missing_or_bad]) ++
        [Event.mavlink_log_critical Msg.SENSOR_FAIL_MAG_CHECK_CAL], world_with good_store 1⟩ := by
    rw [run_checks_run]
    simp [world_with, OK]
  have hmain := main_failing_run ["preflight_check"] 0 (world_with good_store 1) (by decide)
    (by rw [hchk])
  have hev : (preflight_check_main ["preflight_check"] 0 (world_with good_store 1)).events =
      (checks_prelude ++ [Event.selftest Device.MAG_DEVICE_PATH,
        Event.warn Warning.magnetometer_calibration_missing_or_bad]) ++
      Event.mavlink_log_critical Msg.SENSOR_FAIL_MAG_CHECK_CAL ::
        (system_eval false (fail_on_error ["preflight_check"]) (world_with good_store 1)).events := by
    rw [hmain, hchk]
    simp [Res.prepend]
  constructor
  · rw [hev]
    exact delay_follows_break _ _ _ _ (by simp [log_msgs, checks_prelude]) rfl (alert_stage_head _ _)
  · rw [hev, system_eval_false_run]
    exact ⟨_, _, rfl⟩

/-- C12, amended: in a run that reaches the checks, when a sensor check fails
the sensor-failure message is the last call of the checks and the only message
of the run; the call right after it is the `fflush` that opens the alert
stage, not a sleep; no sleep of 100 ms precedes it, and the 150 sleeps of
100 ms of the alert loop all come after it and before the exit. -/
theorem C12_message_then_alert (argv : List String) (channel : Int) (w : World)
    (hrun : first_arg_is argv "--help" = false)
    (hfail : (sensor_fails w Sensor.Mag || sensor_fails w Sensor.Accel ||
      sensor_fails w Sensor.Gyro) = true) :
    ∃ pre m, m.is_sensor_fail = true ∧
      (preflight_check_main argv channel w).events =
        pre ++ Event.mavlink_log_critical m :: (system_eval false (fail_on_error argv) w).events ∧
      log_msgs pre = [] ∧ pre.count (Event.usleep 100000) = 0 ∧
      (system_eval false (fail_on_error argv) w).events.head? = some Event.fflush ∧
      log_msgs (system_eval false (fail_on_error argv) w).events = [] ∧
      (system_eval false (fail_on_error argv) w).events.count (Event.usleep 100000) = 150 ∧
      log_msgs (preflight_check_main argv channel w).events = [m] ∧
      delay_follows Msg.is_sensor_fail (preflight_check_main argv channel w).events = false := by
  obtain ⟨pre, m, hm, hpre, hcount, _, hchk⟩ := run_checks_sensor_fail channel w hfail
  have hmain := main_failing_run argv channel w hrun (by rw [hchk])
  have hev : (preflight_check_main argv channel w).events =
      pre ++ Event.mavlink_log_critical m :: (system_eval false (fail_on_error argv) w).events := by
    rw [hmain, hchk]
    simp [Res.prepend]
  refine ⟨pre, m, hm, hev, hpre, hcount, alert_stage_head _ _, alert_stage_log _ _,
    alert_stage_count _ _, ?_, ?_⟩
  · rw [hev, log_msgs_append, hpre]
    have : log_msgs (Event.mavlink_log_critical m :: (system_eval false (fail_on_error argv) w).events) =
        m :: log_msgs (system_eval false (fail_on_error argv) w).events := rfl
    rw [this, alert_stage_log]
    rfl
  · rw [hev]
    exact delay_follows_break _ _ _ _ hpre hm (alert_stage_head _ _)

/-- C12, witness: every self-test returns 1, so the magnetometer check fails,
with `--fail-on-error`. -/
theorem C12_message_then_alert_witness :
    ∃ pre m, m.is_sensor_fail = true ∧
      (preflight_check_main ["preflight_check", "--fail-on-error"] 0 (world_with good_store 1)).events =
        pre ++ Event.mavlink_log_critical m ::
          (system_eval false (fail_on_error ["preflight_check", "--fail-on-error"])
            (world_with good_store 1)).events ∧
      log_msgs (preflight_check_main ["preflight_check", "--fail-on-error"] 0
        (world_with good_store 1)).events = [m] := by
  obtain ⟨pre, m, h1, h2, _, _, _, _, _, h3, _⟩ :=
    C12_message_then_alert ["preflight_check", "--fail-on-error"] 0 (world_with good_store 1)
      (by decide) (by decide)
  exact ⟨pre, m, h1, h2, h3⟩

/-! ## The alert cycles one by one -/

theorem alert_cycles_get (n : Nat) : ∀ (i : Nat) (b a : LedCmd) (j : Nat), j < n →
    (alert_cycles n i b a)[j]? = some (cycle_events (i + j) (LedCmd.flip^[j] b) (LedCmd.flip^[j] a)) := by
  induction n with
  | zero => intro i b a j hj; omega
  | succ n ih =>
    intro i b a j hj
    cases j with
    | zero => simp [alert_cycles]
    | succ j =>
      simp only [alert_cycles, List.getElem?_cons_succ]
      rw [ih (i + 1) b.flip a.flip j (by omega)]
      simp only [Function.iterate_succ, Function.comp_apply]
      congr 2
      omega

theorem flip_flip (c : LedCmd) : c.flip.flip = c := by cases c <;> rfl

theorem flip_iterate (j : Nat) (c : LedCmd) :
    LedCmd.flip^[j] c = if j % 2 = 0 then c else c.flip := by
  induction j with
  | zero => rfl
  | succ j ih =>
    rw [Function.iterate_succ_apply', ih]
    rcases Nat.mod_two_eq_zero_or_one j with h | h
    · have : (j + 1) % 2 = 1 := by omega
      simp [h, this]
    · have : (j + 1) % 2 = 0 := by omega
      simp [h, this, flip_flip]

theorem tone_cmds_append (a b : List Event) : tone_cmds (a ++ b) = tone_cmds a ++ tone_cmds b := by
  simp [tone_cmds, List.filterMap_append]

theorem led_cmds_append (l : Led) (a b : List Event) :
    led_cmds l (a ++ b) = led_cmds l a ++ led_cmds l b := by
  simp [led_cmds, List.filterMap_append]

theorem tone_cmds_cycle (i : Nat) (b a : LedCmd) : tone_cmds (cycle_events i b a) = tone_of i := by
  unfold cycle_events cycle_tone tone_of
  split_ifs <;> simp [tone_cmds]

theorem led_cmds_cycle_blue (i : Nat) (b a : LedCmd) :
    led_cmds Led.LED_BLUE (cycle_events i b a) = [b.flip] := by
  unfold cycle_events cycle_tone
  split_ifs <;> simp [led_cmds]

theorem led_cmds_cycle_amber (i : Nat) (b a : LedCmd) :
    led_cmds Led.LED_AMBER (cycle_events i b a) = [a.flip] := by
  unfold cycle_events cycle_tone
  split_ifs <;> simp [led_cmds]

theorem tone_cmds_cycles (n : Nat) : ∀ (i : Nat) (b a : LedCmd),
    tone_cmds (alert_cycles n i b a).flatten = (List.range' i n).flatMap tone_of := by
  induction n with
  | zero => intro i b a; rfl
  | succ n ih =>
    intro i b a
    simp only [alert_cycles, List.flatten_cons, tone_cmds_append, tone_cmds_cycle, ih,
      List.range'_succ, List.flatMap_cons]

theorem tone_count_4 : ((List.range' 0 150).flatMap tone_of).count 4 = 15 := by decide

theorem tone_count_2 : ((List.range' 0 150).flatMap tone_of).count 2 = 15 := by decide

/-! ## C14 -/

/-- C14: the alert stage on a failing verdict consists of the entry calls, 150
cycles and the closing calls; the cycle with index `i` issues the tone command
4 exactly when `i` is a multiple of 10, the tone command 2 exactly when `i` is
a multiple of 5 and not of 10, and no tone command otherwise; over the 150
cycles the command 4 is issued 15 times and the command 2 is issued 15 times,
and the first tone command of the stage is 4. -/
theorem C14_tone_cadence (foe : Bool) (w : World) :
    ∃ cycles : List (List Event),
      cycles.length = 150 ∧
      (system_eval false foe w).events = alert_entry w.last_blue ++ cycles.flatten ++ alert_exit ∧
      (∀ i, i < 150 → ∃ c, cycles[i]? = some c ∧ is_cycle c ∧
        tone_cmds c = if i % 10 = 0 then [4] else if i % 5 = 0 then [2] else []) ∧
      (tone_cmds cycles.flatten).count 4 = 15 ∧
      (tone_cmds cycles.flatten).count 2 = 15 ∧
      tone_cmds (system_eval false foe w).events = tone_cmds cycles.flatten ++ [0] ∧
      (tone_cmds (system_eval false foe w).events).head? = some 4 := by
  refine ⟨alert_cycles 150 0 w.last_blue.flip w.last_amber, alert_cycles_length _ _ _ _, ?_, ?_, ?_, ?_,
    ?_, ?_⟩
  · rw [system_eval_false_run]
  · intro i hi
    refine ⟨_, alert_cycles_get 150 0 _ _ i hi, cycle_events_is_cycle _ _ _, ?_⟩
    rw [tone_cmds_cycle, Nat.zero_add]
    rfl
  · rw [tone_cmds_cycles]; exact tone_count_4
  · rw [tone_cmds_cycles]; exact tone_count_2
  · rw [system_eval_false_run]
    simp only [tone_cmds_append]
    simp [tone_cmds, alert_entry, alert_exit]
  · rw [system_eval_false_run]
    simp only [tone_cmds_append, tone_cmds_cycles]
    simp [tone_cmds, alert_entry, List.range'_succ, tone_of]

/-- C14, witness: cycles 0, 5 and 7 of a run from program start. -/
theorem C14_tone_cadence_witness :
    ∃ cycles : List (List Event),
      (system_eval false false (world_with good_store 1)).events =
        alert_entry LedCmd.LED_ON ++ cycles.flatten ++ alert_exit ∧
      (∃ c, cycles[0]? = some c ∧ tone_cmds c = [4]) ∧
      (∃ c, cycles[5]? = some c ∧ tone_cmds c = [2]) ∧
      (∃ c, cycles[7]? = some c ∧ tone_cmds c = []) := by
  obtain ⟨cycles, _, hev, hc, _⟩ := C14_tone_cadence false (world_with good_store 1)
  refine ⟨cycles, hev, ?_, ?_, ?_⟩
  · obtain ⟨c, h1, _, h2⟩ := hc 0 (by decide)
    exact ⟨c, h1, h2⟩
  · obtain ⟨c, h1, _, h2⟩ := hc 5 (by decide)
    exact ⟨c, h1, h2⟩
  · obtain ⟨c, h1, _, h2⟩ := hc 7 (by decide)
    exact ⟨c, h1, h2⟩

/-! ## C15 -/

/-- C15: from program start (both remembered LED states `LED_ON`), the entry
calls of the alert command blue off, amber off and, by the toggle, blue off;
then in the cycle with index `i` the blue LED is commanded once, to `LED_ON`
when `i` is even and to `LED_OFF` when `i` is odd, and the amber LED is
commanded once, to the opposite state.  So after every cycle the two LEDs are
in opposite states, and each LED changes state from one cycle to the next. -/
theorem C15_alternating_leds (foe : Bool) (w : World)
    (hb : w.last_blue = LedCmd.LED_ON) (ha : w.last_amber = LedCmd.LED_ON) :
    ∃ cycles : List (List Event),
      cycles.length = 150 ∧
      (system_eval false foe w).events =
        [Event.fflush, Event.dev_open Device.tone_alarm, Event.dev_open Device.LED_DEVICE_PATH,
         Event.led_ioctl LedCmd.LED_OFF Led.LED_BLUE, Event.led_ioctl LedCmd.LED_OFF Led.LED_AMBER,
         Event.led_ioctl LedCmd.LED_OFF Led.LED_BLUE] ++ cycles.flatten ++ alert_exit ∧
      (∀ i, i < 150 → ∃ c, cycles[i]? = some c ∧ is_cycle c ∧
        led_cmds Led.LED_BLUE c = [if i % 2 = 0 then LedCmd.LED_ON else LedCmd.LED_OFF] ∧
        led_cmds Led.LED_AMBER c = [if i % 2 = 0 then LedCmd.LED_OFF else LedCmd.LED_ON]) ∧
      (∀ i, i < 150 → ∃ c x y, cycles[i]? = some c ∧
        led_cmds Led.LED_BLUE c = [x] ∧ led_cmds Led.LED_AMBER c = [y] ∧ x ≠ y) ∧
      (∀ i, i + 1 < 150 → ∃ c d x y, cycles[i]? = some c ∧ cycles[i + 1]? = some d ∧
        led_cmds Led.LED_BLUE c = [x] ∧ led_cmds Led.LED_BLUE d = [x.flip] ∧
        led_cmds Led.LED_AMBER c = [y] ∧ led_cmds Led.LED_AMBER d = [y.flip]) := by
  have hcyc : ∀ i, i < 150 →
      (alert_cycles 150 0 w.last_blue.flip w.last_amber)[i]? =
        some (cycle_events i (if i % 2 = 0 then LedCmd.LED_OFF else LedCmd.LED_ON)
          (if i % 2 = 0 then LedCmd.LED_ON else LedCmd.LED_OFF)) := by
    intro i hi
    rw [alert_cycles_get 150 0 _ _ i hi, flip_iterate, flip_iterate, hb, ha, Nat.zero_add]
    rfl
  refine ⟨alert_cycles 150 0 w.last_blue.flip w.last_amber, alert_cycles_length _ _ _ _, ?_, ?_, ?_, ?_⟩
  · rw [system_eval_false_run, hb]
    rfl
  · intro i hi
    refine ⟨_, hcyc i hi, cycle_events_is_cycle _ _ _, ?_, ?_⟩
    · rw [led_cmds_cycle_blue]; split_ifs <;> rfl
    · rw [led_cmds_cycle_amber]; split_ifs <;> rfl
  · intro i hi
    refine ⟨_, _, _, hcyc i hi, led_cmds_cycle_blue _ _ _, led_cmds_cycle_amber _ _ _, ?_⟩
    split_ifs <;> simp [LedCmd.flip]
  · intro i hi
    refine ⟨_, _, _, _, hcyc i (by omega), hcyc (i + 1) hi, led_cmds_cycle_blue _ _ _, ?_,
      led_cmds_cycle_amber _ _ _, ?_⟩
    · rw [led_cmds_cycle_blue]
      rcases Nat.mod_two_eq_zero_or_one i with h | h
      · have : (i + 1) % 2 = 1 := by omega
        simp [h, this, LedCmd.flip]
      · have : (i + 1) % 2 = 0 := by omega
        simp [h, this, LedCmd.flip]
    · rw [led_cmds_cycle_amber]
      rcases Nat.mod_two_eq_zero_or_one i with h | h
      · have : (i + 1) % 2 = 1 := by omega
        simp [h, this, LedCmd.flip]
      · have : (i + 1) % 2 = 0 := by omega
        simp [h, this, LedCmd.flip]

/-- C15, witness: cycles 0 and 1 of a run from program start. -/
theorem C15_alternating_leds_witness :
    ∃ cycles : List (List Event),
      (∃ c, cycles[0]? = some c ∧ led_cmds Led.LED_BLUE c = [LedCmd.LED_ON] ∧
        led_cmds Led.LED_AMBER c = [LedCmd.LED_OFF]) ∧
      (∃ c, cycles[1]? = some c ∧ led_cmds Led.LED_BLUE c = [LedCmd.LED_OFF] ∧
        led_cmds Led.LED_AMBER c = [LedCmd.LED_ON]) ∧
      (system_eval false true (world_with good_store 1)).events =
        [Event.fflush, Event.dev_open Device.tone_alarm, Event.dev_open Device.LED_DEVICE_PATH,
         Event.led_ioctl LedCmd.LED_OFF Led.LED_BLUE, Event.led_ioctl LedCmd.LED_OFF Led.LED_AMBER,
         Event.led_ioctl LedCmd.LED_OFF Led.LED_BLUE] ++ cycles.flatten ++ alert_exit := by
  obtain ⟨cycles, _, hev, hc, _⟩ := C15_alternating_leds true (world_with good_store 1) rfl rfl
  refine ⟨cycles, ?_, ?_, hev⟩
  · obtain ⟨c, h1, _, h2, h3⟩ := hc 0 (by decide)
    exact ⟨c, h1, h2, h3⟩
  · obtain ⟨c, h1, _, h2, h3⟩ := hc 1 (by decide)
    exact ⟨c, h1, h2, h3⟩

/-! ## C16 -/

theorem getLast_append_singleton {α : Type} (l : List α) (a : α) : (l ++ [a]).getLast? = some a := by
  simp

/-- C16: in every run that reaches the checks and fails them, whatever the
arguments and whichever check failed, the calls after the 150 cycles are
exactly: tone alarm 0, blue LED on, amber LED on; they are the last calls of
the run, so the last tone command of the run is 0 and the last command to
either LED is `LED_ON`. -/
theorem C16_final_state (argv : List String) (channel : Int) (w : World)
    (hrun : first_arg_is argv "--help" = false) (hval : (run_checks channel w).val = false) :
    ∃ cycles : List (List Event),
      cycles.length = 150 ∧ (∀ c ∈ cycles, is_cycle c) ∧
      (preflight_check_main argv channel w).events =
        (run_checks channel w).events ++ alert_entry w.last_blue ++ cycles.flatten ++
          [Event.tone_set_alarm 0, Event.led_ioctl LedCmd.LED_ON Led.LED_BLUE,
           Event.led_ioctl LedCmd.LED_ON Led.LED_AMBER] ∧
      (tone_cmds (preflight_check_main argv channel w).events).getLast? = some 0 ∧
      (led_cmds Led.LED_BLUE (preflight_check_main argv channel w).events).getLast? =
        some LedCmd.LED_ON ∧
      (led_cmds Led.LED_AMBER (preflight_check_main argv channel w).events).getLast? =
        some LedCmd.LED_ON := by
  have hev : (preflight_check_main argv channel w).events =
      (run_checks channel w).events ++ alert_entry w.last_blue ++
        (alert_cycles 150 0 w.last_blue.flip w.last_amber).flatten ++
          [Event.tone_set_alarm 0, Event.led_ioctl LedCmd.LED_ON Led.LED_BLUE,
           Event.led_ioctl LedCmd.LED_ON Led.LED_AMBER] := by
    rw [main_failing_run argv channel w hrun hval, system_eval_false_run]
    simp [Res.prepend, alert_exit]
  refine ⟨_, alert_cycles_length _ _ _ _, alert_cycles_is_cycle _ _ _ _, hev, ?_, ?_, ?_⟩
  · rw [hev, tone_cmds_append]
    have : tone_cmds [Event.tone_set_alarm 0, Event.led_ioctl LedCmd.LED_ON Led.LED_BLUE,
        Event.led_ioctl LedCmd.LED_ON Led.LED_AMBER] = [0] := rfl
    rw [this, getLast_append_singleton]
  · rw [hev, led_cmds_append]
    have : led_cmds Led.LED_BLUE [Event.tone_set_alarm 0, Event.led_ioctl LedCmd.LED_ON Led.LED_BLUE,
        Event.led_ioctl LedCmd.LED_ON Led.LED_AMBER] = [LedCmd.LED_ON] := rfl
    rw [this, getLast_append_singleton]
  · rw [hev, led_cmds_append]
    have : led_cmds Led.LED_AMBER [Event.tone_set_alarm 0, Event.led_ioctl LedCmd.LED_ON Led.LED_BLUE,
        Event.led_ioctl LedCmd.LED_ON Led.LED_AMBER] = [LedCmd.LED_ON] := rfl
    rw [this, getLast_append_singleton]

theorem run_checks_val_false_of_fail (channel : Int) (w : World)
    (h : (sensor_fails w Sensor.Mag || sensor_fails w Sensor.Accel || sensor_fails w Sensor.Gyro) = true) :
    (run_checks channel w).val = false := by
  obtain ⟨_, _, _, _, _, _, hchk⟩ := run_checks_sensor_fail channel w h
  rw [hchk]

/-- C16, witness: a run without arguments in which the magnetometer self-test
returns 1. -/
theorem C16_final_state_witness :
    (tone_cmds (preflight_check_main ["preflight_check"] 0 (world_with good_store 1)).events).getLast? =
      some 0 ∧
    (led_cmds Led.LED_BLUE
      (preflight_check_main ["preflight_check"] 0 (world_with good_store 1)).events).getLast? =
      some LedCmd.LED_ON ∧
    (led_cmds Led.LED_AMBER
      (preflight_check_main ["preflight_check"] 0 (world_with good_store 1)).events).getLast? =
      some LedCmd.LED_ON := by
  obtain ⟨_, _, _, _, h1, h2, h3⟩ := C16_final_state ["preflight_check"] 0 (world_with good_store 1)
    (by decide) (run_checks_val_false_of_fail 0 _ (by decide))
  exact ⟨h1, h2, h3⟩

/-! ## C17 -/

/-- C17: replacing the result of opening the barometer by any other value
changes neither the verdict, nor the calls of the run (messages, LED and tone
commands included), nor the exit status. -/
theorem C17_baro_irrelevant (argv : List String) (channel : Int) (w : World) (x : Int) :
    (run_checks channel (set_baro_open w x)).val = (run_checks channel w).val ∧
    (preflight_check_main argv channel (set_baro_open w x)).events =
      (preflight_check_main argv channel w).events ∧
    log_msgs (preflight_check_main argv channel (set_baro_open w x)).events =
      log_msgs (preflight_check_main argv channel w).events ∧
    (preflight_check_main argv channel (set_baro_open w x)).val =
      (preflight_check_main argv channel w).val := by
  have hchk : (run_checks channel (set_baro_open w x)).val = (run_checks channel w).val ∧
      (run_checks channel (set_baro_open w x)).events = (run_checks channel w).events := by
    rw [run_checks_run, run_checks_run, rc_calibration_run, rc_calibration_run]
    simp only [set_baro_open]
    simp only [Device.noConfusion, if_false, reduceCtorEq]
    split_ifs <;> exact ⟨rfl, rfl⟩
  have hmain : (preflight_check_main argv channel (set_baro_open w x)).events =
        (preflight_check_main argv channel w).events ∧
      (preflight_check_main argv channel (set_baro_open w x)).val =
        (preflight_check_main argv channel w).val := by
    rcases Bool.eq_false_or_eq_true (first_arg_is argv "--help") with hh | hh
    · rw [main_help_run argv channel _ hh, main_help_run argv channel _ hh]
      exact ⟨rfl, rfl⟩
    · rw [main_run argv channel _ hh, main_run argv channel _ hh, run_checks_world, run_checks_world,
        hchk.1, hchk.2]
      rcases Bool.eq_false_or_eq_true (run_checks channel w).val with hv | hv
      · rw [hv, system_eval_true_run, system_eval_true_run]
        exact ⟨rfl, rfl⟩
      · rw [hv, system_eval_false_run, system_eval_false_run]
        exact ⟨rfl, rfl⟩
  exact ⟨hchk.1, hmain.1, by rw [hmain.1], hmain.2⟩

/-! ## C18 -/

theorem cfloat_lt_trans (a b c : CFloat) (h1 : CFloat.lt a b = true) (h2 : CFloat.lt b c = true) :
    CFloat.lt a c = true := by
  cases a <;> cases b <;> cases c <;> simp_all [CFloat.lt]
  exact lt_trans h1 h2

theorem not_all_four (p : ParamName → CFloat) (c : Nat) :
    ¬ (CFloat.lt (p ⟨c, Field.MIN⟩) (CFloat.ofNat 500) = true ∧
       CFloat.gt (p ⟨c, Field.MAX⟩) (CFloat.ofNat 2500) = true ∧
       CFloat.lt (p ⟨c, Field.TRIM⟩) (p ⟨c, Field.MIN⟩) = true ∧
       CFloat.gt (p ⟨c, Field.TRIM⟩) (p ⟨c, Field.MAX⟩) = true) := by
  rintro ⟨h1, h2, h3, h4⟩
  unfold CFloat.gt at h2 h4
  have a := cfloat_lt_trans _ _ _ h3 h1
  have b := cfloat_lt_trans _ _ _ h2 h4
  have c := cfloat_lt_trans _ _ _ b a
  simp [CFloat.lt, CFloat.ofNat] at c
  norm_num at c

theorem fired_length_le (p : ParamName → CFloat) (c : Nat) : (fired p c).length ≤ 4 := by
  have hn := not_all_four p c
  unfold fired Invariant.all
  rcases Bool.eq_false_or_eq_true (CFloat.lt (p ⟨c, Field.MIN⟩) (CFloat.ofNat 500)) with h1 | h1 <;>
  rcases Bool.eq_false_or_eq_true (CFloat.gt (p ⟨c, Field.MAX⟩) (CFloat.ofNat 2500)) with h2 | h2 <;>
  rcases Bool.eq_false_or_eq_true (CFloat.lt (p ⟨c, Field.TRIM⟩) (p ⟨c, Field.MIN⟩)) with h3 | h3 <;>
  rcases Bool.eq_false_or_eq_true (CFloat.gt (p ⟨c, Field.TRIM⟩) (p ⟨c, Field.MAX⟩)) with h4 | h4 <;>
  rcases Bool.eq_false_or_eq_true (CFloat.gt (p ⟨c, Field.DZ⟩) (CFloat.ofNat 500)) with h5 | h5 <;>
  first
    | (simp [List.filter, h1, h2, h3, h4, h5, Invariant.fires]; done)
    | exact absurd (And.intro h1 (And.intro h2 (And.intro h3 h4))) hn

theorem flatMap_length_le {α : Type} (f : Nat → List α) (k : Nat) (l : List Nat)
    (h : ∀ x ∈ l, (f x).length ≤ k) : (l.flatMap f).length ≤ l.length * k := by
  induction l with
  | nil => simp
  | cons a l ih =>
    rw [List.flatMap_cons, List.length_append, List.length_cons, Nat.succ_mul]
    have h1 := h a (List.mem_cons_self _ _)
    have h2 := ih (fun x hx => h x (List.mem_cons_of_mem _ hx))
    omega

theorem chan_all_msgs_length_le (channel : Int) (p : ParamName → CFloat) (i : Nat) :
    (chan_all_msgs channel p i).length ≤ 5 := by
  unfold chan_all_msgs
  have h := fired_length_le p (i + 1)
  rw [chan_msgs_eq_fired, List.length_append, List.length_map]
  split_ifs <;> simp <;> omega

/-- C18: on every channel at most four of the five comparisons hold at once
(`min < 500`, `max > 2500`, `trim < min` and `trim > max` never hold
together), so the count carried by a summary is the number of violation
messages of the pass, between 1 and 4, and the 8-bit counter does not wrap; a
run of the RC check logs at most 60 messages; and four violations do occur,
with `min = 400`, `trim = 200`, `max = 100`, `deadzone = 600`. -/
theorem C18_count_bound (channel : Int) (w : World) :
    (∀ c : Nat, ¬ (CFloat.lt (w.params ⟨c, Field.MIN⟩) (CFloat.ofNat 500) = true ∧
       CFloat.gt (w.params ⟨c, Field.MAX⟩) (CFloat.ofNat 2500) = true ∧
       CFloat.lt (w.params ⟨c, Field.TRIM⟩) (w.params ⟨c, Field.MIN⟩) = true ∧
       CFloat.gt (w.params ⟨c, Field.TRIM⟩) (w.params ⟨c, Field.MAX⟩) = true)) ∧
    (∀ c : Nat, (fired w.params c).length ≤ 4) ∧
    (∀ (i n : Nat) (c : Int), Msg.ERROR_config n c ∈ log_msgs (rc_channel channel i w).events →
      n = (fired w.params (i + 1)).length ∧ 1 ≤ n ∧ n ≤ 4 ∧
      (log_msgs (rc_channel channel i w).events).length = n + 1) ∧
    (∀ i : Nat, (log_msgs (rc_channel channel i w).events).length ≤ 5) ∧
    (log_msgs (rc_calibration channel w).events).length ≤ 60 ∧
    log_msgs (rc_channel channel 0 (world_with bad_store 0)).events =
      [Msg.ERR_RC_MIN 1, Msg.ERR_RC_TRIM_LT_MIN 1, Msg.ERR_RC_TRIM_GT_MAX 1, Msg.ERR_RC_DZ 1,
       Msg.ERROR_config 4 (channel + 1)] := by
  refine ⟨fun c => not_all_four w.params c, fun c => fired_length_le w.params c, ?_, ?_, ?_, ?_⟩
  · intro i n c hm
    have hle := fired_length_le w.params (i + 1)
    rw [rc_channel_msgs] at hm ⊢
    rw [List.mem_append] at hm
    rcases hm with hm | hm
    · rw [List.mem_map] at hm
      obtain ⟨v, _, hv⟩ := hm
      cases v <;> simp [Invariant.msg] at hv
    · by_cases hf : fired w.params (i + 1) = []
      · simp [hf] at hm
      · simp only [hf, if_false, List.mem_singleton, Msg.ERROR_config.injEq] at hm
        have hpos : 0 < (fired w.params (i + 1)).length := List.length_pos.mpr hf
        refine ⟨hm.1, by omega, by omega, ?_⟩
        simp [hf, hm.1]
  · intro i
    rw [rc_channel_log]
    exact chan_all_msgs_length_le channel w.params i
  · rw [rc_log]
    have := flatMap_length_le (chan_all_msgs channel w.params) 5 (List.range' 0 12)
      (fun x _ => chan_all_msgs_length_le channel w.params x)
    simpa using this
  · rw [rc_channel_log]
    simp [chan_all_msgs, chan_msgs, world_with, bad_store, uniform_store, CFloat.lt, CFloat.gt,
      CFloat.ofNat]
    norm_num

/-- C18, witness: the summary of the four-violation example carries count 4. -/
theorem C18_count_bound_witness :
    4 = (fired (world_with bad_store 0).params (0 + 1)).length ∧ 1 ≤ 4 ∧ 4 ≤ 4 ∧
      (log_msgs (rc_channel 0 0 (world_with bad_store 0)).events).length = 4 + 1 := by
  have h := C18_count_bound 0 (world_with bad_store 0)
  exact h.2.2.1 0 4 (0 + 1) (by rw [h.2.2.2.2.2]; simp)

/-! ## C19 -/

theorem chan_all_msgs_not_sensor (channel : Int) (p : ParamName → CFloat) (i : Nat) :
    ∀ m ∈ chan_all_msgs channel p i, m.is_sensor_fail = false := by
  intro m hm
  unfold chan_all_msgs at hm
  rw [chan_msgs_eq_fired, List.mem_append] at hm
  rcases hm with hm | hm
  · rw [List.mem_map] at hm
    obtain ⟨v, _, rfl⟩ := hm
    cases v <;> rfl
  · split_ifs at hm
    · simp at hm
    · simp at hm
      subst hm
      rfl

theorem rc_log_not_sensor (channel : Int) (w : World) :
    ∀ m ∈ log_msgs (rc_calibration channel w).events, m.is_sensor_fail = false := by
  rw [rc_log]
  intro m hm
  rw [List.mem_flatMap] at hm
  obtain ⟨j, _, hj⟩ := hm
  exact chan_all_msgs_not_sensor channel w.params j m hj

/-- The messages of a whole run are either all sensor-failure messages or all
messages of the RC check. -/
theorem main_log_one_kind (argv : List String) (channel : Int) (w : World) :
    (∀ m ∈ log_msgs (preflight_check_main argv channel w).events, m.is_sensor_fail = true) ∨
    (∀ m ∈ log_msgs (preflight_check_main argv channel w).events, m.is_sensor_fail = false) := by
  rcases Bool.eq_false_or_eq_true (first_arg_is argv "--help") with hh | hh
  · left
    rw [main_help_run argv channel w hh]
    intro m hm
    simp [log_msgs] at hm
  · rcases Bool.eq_false_or_eq_true
        (sensor_fails w Sensor.Mag || sensor_fails w Sensor.Accel || sensor_fails w Sensor.Gyro)
      with hf | hf
    · left
      obtain ⟨pre, m, hm, hpre, _, _, hchk⟩ := run_checks_sensor_fail channel w hf
      rw [main_failing_run argv channel w hh (by rw [hchk]), hchk]
      simp only [Res.prepend, log_msgs_append, hpre, alert_stage_log]
      intro x hx
      simp [log_msgs] at hx
      subst hx
      exact hm
    · right
      obtain ⟨h1, h2, h3, h4⟩ := sensor_fails_any w hf
      have hchk := run_checks_pass_run channel w (by omega) h2 h3 h4
      rw [main_run argv channel w hh, hchk]
      simp only [Res.prepend, log_msgs_append]
      intro m hm
      rcases Bool.eq_false_or_eq_true (rc_calibration channel w).val with hv | hv
      · rw [hv, system_eval_true_run] at hm
        simp [log_msgs, checks_prelude] at hm
        exact rc_log_not_sensor channel w m (by simpa [log_msgs] using hm)
      · rw [hv, alert_stage_log] at hm
        simp [log_msgs, checks_prelude] at hm
        exact rc_log_not_sensor channel w m (by simpa [log_msgs] using hm)

/-- C19: when the magnetometer open or one of the three self-tests fails, the
run looks up and reads no parameter and logs nothing but sensor-failure
messages, whatever the parameter store holds; and no run logs both a
sensor-failure message and a message of the RC check. -/
theorem C19_failure_skips_rc (argv : List String) (channel : Int) (w : World) :
    ((sensor_fails w Sensor.Mag || sensor_fails w Sensor.Accel || sensor_fails w Sensor.Gyro) = true →
      (∀ e ∈ (preflight_check_main argv channel w).events, e.is_param = false) ∧
      (∀ m ∈ log_msgs (preflight_check_main argv channel w).events, m.is_sensor_fail = true)) ∧
    ¬ ((∃ m ∈ log_msgs (preflight_check_main argv channel w).events, m.is_sensor_fail = true) ∧
       (∃ m ∈ log_msgs (preflight_check_main argv channel w).events, m.is_sensor_fail = false)) := by
  constructor
  · intro hf
    rcases Bool.eq_false_or_eq_true (first_arg_is argv "--help") with hh | hh
    · rw [main_help_run argv channel w hh]
      constructor
      · intro e he; simp at he; subst he; rfl
      · intro m hm; simp [log_msgs] at hm
    · obtain ⟨pre, m, hm, hpre, _, hpar, hchk⟩ := run_checks_sensor_fail channel w hf
      rw [main_failing_run argv channel w hh (by rw [hchk]), hchk]
      simp only [Res.prepend, log_msgs_append, hpre, alert_stage_log]
      constructor
      · intro e he
        simp only [List.mem_append] at he
        rcases he with (he | he) | he
        · exact hpar e he
        · simp at he; subst he; rfl
        · exact alert_stage_no_param _ w e he
      · intro x hx
        simp [log_msgs] at hx
        subst hx
        exact hm
  · rintro ⟨⟨m, hm, hs⟩, ⟨n, hn, hr⟩⟩
    rcases main_log_one_kind argv channel w with h | h
    · have := h n hn
      rw [hr] at this
      exact Bool.noConfusion this
    · have := h m hm
      rw [hs] at this
      exact Bool.noConfusion this

/-- C19, witness: the gyroscope is the only failing sensor and the store has
four violations on every channel; only the gyroscope message is logged. -/
theorem C19_failure_skips_rc_witness :
    (∀ e ∈ (preflight_check_main ["preflight_check"] 0
      ⟨bad_store, fun _ => 3, fun d => if d = Device.GYRO_DEVICE_PATH then 1 else 0,
        LedCmd.LED_ON, LedCmd.LED_ON⟩).events, e.is_param = false) ∧
    (∀ m ∈ log_msgs (preflight_check_main ["preflight_check"] 0
      ⟨bad_store, fun _ => 3, fun d => if d = Device.GYRO_DEVICE_PATH then 1 else 0,
        LedCmd.LED_ON, LedCmd.LED_ON⟩).events, m.is_sensor_fail = true) :=
  (C19_failure_skips_rc ["preflight_check"] 0
    ⟨bad_store, fun _ => 3, fun d => if d = Device.GYRO_DEVICE_PATH then 1 else 0,
      LedCmd.LED_ON, LedCmd.LED_ON⟩).1 (by decide)

/-! ## C20 -/

theorem first_arg_is_iff (argv : List String) (s : String) :
    first_arg_is argv s = true ↔ argv[1]? = some s := by
  unfold first_arg_is
  match argv with
  | [] => simp
  | [_] => simp
  | _ :: b :: _ => simp

/-- C20: the exit status is 1 exactly when the argument at position 1 is
`--help`, or it is `--fail-on-error` and the verdict of the checks is false;
otherwise it is 0.  With the magnetometer self-test failing, a run with
`--fail-on-error` only at position 2 exits 0, and so does a run without
arguments. -/
theorem C20_exit_status (argv : List String) (channel : Int) (w : World) :
    ((preflight_check_main argv channel w).val = 1 ↔
      (argv[1]? = some "--help" ∨
       (argv[1]? = some "--fail-on-error" ∧ (run_checks channel w).val = false))) ∧
    ((preflight_check_main argv channel w).val = 0 ∨ (preflight_check_main argv channel w).val = 1) ∧
    (run_checks channel (world_with good_store 1)).val = false ∧
    (preflight_check_main ["preflight_check", "-v", "--fail-on-error"] channel
      (world_with good_store 1)).val = 0 ∧
    (preflight_check_main ["preflight_check"] channel (world_with good_store 1)).val = 0 ∧
    (preflight_check_main ["preflight_check", "--fail-on-error"] channel
      (world_with good_store 1)).val = 1 := by
  have gen : ∀ (argv : List String) (w : World),
      ((preflight_check_main argv channel w).val = 1 ↔
        (argv[1]? = some "--help" ∨
         (argv[1]? = some "--fail-on-error" ∧ (run_checks channel w).val = false))) ∧
      ((preflight_check_main argv channel w).val = 0 ∨ (preflight_check_main argv channel w).val = 1) := by
    intro argv w
    rcases Bool.eq_false_or_eq_true (first_arg_is argv "--help") with hh | hh
    · rw [main_help_run argv channel w hh]
      have := (first_arg_is_iff argv "--help").mp hh
      simp [this]
    · have hnh : ¬ argv[1]? = some "--help" := by
        rw [← first_arg_is_iff, hh]; simp
      rw [main_run argv channel w hh, run_checks_world]
      rcases Bool.eq_false_or_eq_true (run_checks channel w).val with hv | hv
      · rw [hv, system_eval_true_run]
        simp [Res.prepend, hnh]
      · rw [hv, system_eval_false_run]
        rcases Bool.eq_false_or_eq_true (fail_on_error argv) with hf | hf
        · have := (first_arg_is_iff argv "--fail-on-error").mp hf
          simp [Res.prepend, hf, this]
        · have hnf : ¬ argv[1]? = some "--fail-on-error" := by
            rw [← first_arg_is_iff]
            unfold fail_on_error at hf
            rw [hf]; simp
          simp [Res.prepend, hf, hnh, hnf]
  have hv : (run_checks channel (world_with good_store 1)).val = false :=
    run_checks_val_false_of_fail channel _ (by decide)
  refine ⟨(gen argv w).1, (gen argv w).2, hv, ?_, ?_, ?_⟩
  · have h := (gen ["preflight_check", "-v", "--fail-on-error"] (world_with good_store 1))
    rcases h.2 with h0 | h1
    · exact h0
    · exact absurd (h.1.mp h1) (by simp)
  · have h := (gen ["preflight_check"] (world_with good_store 1))
    rcases h.2 with h0 | h1
    · exact h0
    · exact absurd (h.1.mp h1) (by simp)
  · exact (gen ["preflight_check", "--fail-on-error"] (world_with good_store 1)).1.mpr
      (Or.inr ⟨rfl, hv⟩)

end Preflight
